import Mathlib

/-!
Verification of the ingestion/sync core of the Sports_Game_Tracker repository.

This file gives a shallow embedding, in Lean 4, of the parts of the code that
the specification's claims are about:

  * `apps/data_ingestion/clients/espn_client.py` — status mapping tables,
    `normalize_status`, `_parse_scoreboard_event`, `parse_scoreboard`,
    `get_scoreboard`, `get_teams`, `get_team_schedule`;
  * `apps/data_ingestion/services/sync_service.py` — `sync_games`,
    `_get_or_create_team`, `_sync_period_scores`, `sync_live_games`,
    `sync_date_range`, `sync_team_roster`;
  * `apps/data_ingestion/tasks.py` — `sync_daily_schedule`.

Python values flowing through the client and sync service are heterogeneous
dictionaries, so they are modelled by a `Json` type.  Python exceptions are
modelled by an `Err` type and `Except Err` results; Python `dict.get(k, d)`
is total (`Json.getD`), while `d[k]`, list indexing, and iteration raise
(`Json.idx`, `Json.listIdx`, `Json.asArr`).  The Django ORM store is modelled
as an explicit record of row lists with a surrogate primary-key counter, and
`@transaction.atomic` as roll-back-to-the-initial-state on error.  The cache
layer is modelled as disabled (the spec requires correctness to be unaffected
by caching); the list of HTTP requests a client call would issue is returned
explicitly so that "no network call is attempted" is expressible.  The
current Django timezone is modelled as UTC.
-/

/-- A JSON-like value: the shape of the Python dict/list/str/int/None payloads
that the ESPN client and the sync service pass around. -/
inductive Json where
  | null : Json
  | bool (b : Bool) : Json
  | num (n : Int) : Json
  | str (s : String) : Json
  | arr (xs : List Json) : Json
  | obj (kvs : List (String × Json)) : Json
deriving Repr

/-- Python exceptions raised by the embedded code. -/
inductive Err where
  | keyError (k : String) : Err
  | indexError : Err
  | typeError : Err
  | valueError : Err
  | attrError : Err
  | stopIteration : Err
  | unsupportedLeague (league : String) : Err
  | leagueDoesNotExist : Err
deriving DecidableEq, Repr

mutual

/-- Python structural equality on JSON-like values. -/
def Json.beq : Json → Json → Bool
  | .null, .null => true
  | .bool a, .bool b => a == b
  | .num a, .num b => a == b
  | .str a, .str b => a == b
  | .arr xs, .arr ys => Json.beqList xs ys
  | .obj xs, .obj ys => Json.beqObj xs ys
  | _, _ => false

def Json.beqList : List Json → List Json → Bool
  | [], [] => true
  | x :: xs, y :: ys => Json.beq x y && Json.beqList xs ys
  | _, _ => false

def Json.beqObj : List (String × Json) → List (String × Json) → Bool
  | [], [] => true
  | (k1, v1) :: xs, (k2, v2) :: ys => k1 == k2 && Json.beq v1 v2 && Json.beqObj xs ys
  | _, _ => false

end

/-- Python truthiness (`if x:`): None, False, 0, empty string/list/dict are falsy. -/
def Json.truthy : Json → Bool
  | .null => false
  | .bool b => b
  | .num n => n != 0
  | .str s => s != ""
  | .arr xs => !xs.isEmpty
  | .obj kvs => !kvs.isEmpty

/-- Python `d.get(k, default)` on a dict; a key present with value None yields None. -/
def Json.getD (j : Json) (k : String) (d : Json) : Json :=
  match j with
  | .obj kvs => (kvs.lookup k).getD d
  | _ => d

/-- Python `d.get(k)` (default None). -/
def Json.getN (j : Json) (k : String) : Json :=
  j.getD k .null

/-- Python `d[k]`: raises KeyError when the key is absent, TypeError on a non-dict. -/
def Json.idx (j : Json) (k : String) : Except Err Json :=
  match j with
  | .obj kvs =>
    match kvs.lookup k with
    | some v => .ok v
    | none => .error (.keyError k)
  | _ => .error .typeError

/-- Python `xs[i]` on a list: raises IndexError out of range, TypeError on a non-list. -/
def Json.listIdx (j : Json) (i : Nat) : Except Err Json :=
  match j with
  | .arr xs =>
    match xs.get? i with
    | some v => .ok v
    | none => .error .indexError
  | _ => .error .typeError

/-- Python iteration over a value expected to be a list (`for x in v`):
raises TypeError on a non-list. -/
def Json.asArr : Json → Except Err (List Json)
  | .arr xs => .ok xs
  | _ => .error .typeError

/-- Python `str.replace` receiver check: `.replace` on a non-string raises
AttributeError. -/
def Json.asStr : Json → Except Err String
  | .str s => .ok s
  | _ => .error .attrError

/-- Parse the text of a Python `int(...)` string argument: optional surrounding
whitespace, optional sign, then one or more digits. -/
def parseIntText (s : String) : Option Int :=
  let cs := (s.toList.dropWhile (· = ' ')).reverse.dropWhile (· = ' ') |>.reverse
  let (sign, digits) :=
    match cs with
    | '-' :: rest => ((-1 : Int), rest)
    | '+' :: rest => ((1 : Int), rest)
    | _ => ((1 : Int), cs)
  if digits.isEmpty || !digits.all Char.isDigit then none
  else some (sign * (digits.foldl (fun acc c => acc * 10 + (c.toNat - 48)) (0 : Nat) : Nat))

/-- Python `int(x)`: ints pass through, bools coerce, numeric strings parse
(ValueError otherwise), and any other type — None in particular — raises
TypeError. -/
def pyInt : Json → Except Err Int
  | .num n => .ok n
  | .bool b => .ok (if b then 1 else 0)
  | .str s =>
    match parseIntText s with
    | some n => .ok n
    | none => .error .valueError
  | _ => .error .typeError

/-- Map a fallible parser over a list, propagating the first error: the
semantics of a Python list comprehension whose body may raise. -/
def mapExcept (f : Json → Except Err Json) : List Json → Except Err (List Json)
  | [] => .ok []
  | x :: xs => do
    let y ← f x
    let ys ← mapExcept f xs
    .ok (y :: ys)

/-- Python `next(gen)` over a filtered generator without a default:
raises StopIteration when nothing matches, and propagates errors raised
while evaluating the predicate. -/
def findNext (p : Json → Except Err Bool) : List Json → Except Err Json
  | [] => .error .stopIteration
  | c :: rest => do
    if (← p c) then .ok c else findNext p rest

/-- Compare a JSON value against a string the way Python `x == "s"` does:
non-strings are simply unequal. -/
def jstrEq (j : Json) (s : String) : Bool :=
  match j with
  | .str t => t == s
  | _ => false

/-- A Python `datetime.date`. -/
structure PyDate where
  year : Nat
  month : Nat
  day : Nat
deriving DecidableEq, Repr

/-- A Python `datetime.datetime`; `tzOffsetMinutes = none` models a naive
datetime, `some o` an aware one with UTC offset `o` minutes. -/
structure PyDateTime where
  year : Nat
  month : Nat
  day : Nat
  hour : Nat
  minute : Nat
  second : Nat
  tzOffsetMinutes : Option Int
deriving DecidableEq, Repr

/-- Days since 1970-01-01 of a proleptic Gregorian civil date
(Hinnant's days-from-civil algorithm). -/
def daysFromCivil (y0 m d : Int) : Int :=
  let y := if m ≤ 2 then y0 - 1 else y0
  let era := (if y ≥ 0 then y else y - 399) / 400
  let yoe := y - era * 400
  let mp := (m + 9) % 12
  let doy := (153 * mp + 2) / 5 + d - 1
  let doe := yoe * 365 + yoe / 4 - yoe / 100 + doy
  era * 146097 + doe - 719468

/-- Inverse of `daysFromCivil` (Hinnant's civil-from-days algorithm). -/
def civilFromDays (z0 : Int) : Int × Int × Int :=
  let z := z0 + 719468
  let era := (if z ≥ 0 then z else z - 146096) / 146097
  let doe := z - era * 146097
  let yoe := (doe - doe / 1460 + doe / 36524 - doe / 146096) / 365
  let y := yoe + era * 400
  let doy := doe - (365 * yoe + yoe / 4 - yoe / 100)
  let mp := (5 * doy + 2) / 153
  let d := doy - (153 * mp + 2) / 5 + 1
  let m := if mp < 10 then mp + 3 else mp - 9
  (if m ≤ 2 then y + 1 else y, m, d)

/-- `date + timedelta(days=n)`. -/
def addDays (d : PyDate) (n : Int) : PyDate :=
  let (y, m, dd) := civilFromDays (daysFromCivil d.year d.month d.day + n)
  { year := y.toNat, month := m.toNat, day := dd.toNat }

/-- Days in a month of the proleptic Gregorian calendar. -/
def daysInMonth (y m : Nat) : Nat :=
  if m = 2 then
    if y % 4 = 0 && (y % 100 ≠ 0 || y % 400 = 0) then 29 else 28
  else if m = 4 || m = 6 || m = 9 || m = 11 then 30
  else 31

/-- Two decimal digits. -/
def parse2Digits : List Char → Option (Nat × List Char)
  | a :: b :: rest =>
    if a.isDigit && b.isDigit then some ((a.toNat - 48) * 10 + (b.toNat - 48), rest)
    else none
  | _ => none

/-- Four decimal digits. -/
def parse4Digits : List Char → Option (Nat × List Char)
  | a :: b :: c :: d :: rest =>
    if a.isDigit && b.isDigit && c.isDigit && d.isDigit then
      some ((((a.toNat - 48) * 10 + (b.toNat - 48)) * 10 + (c.toNat - 48)) * 10 + (d.toNat - 48), rest)
    else none
  | _ => none

/-- Expect a specific character. -/
def expectChar (c : Char) : List Char → Option (List Char)
  | x :: rest => if x = c then some rest else none
  | [] => none

/-- Optional fractional-second part `.dddddd` (value discarded; the models
only need whole seconds). -/
def dropFraction : List Char → List Char
  | '.' :: rest => rest.dropWhile Char.isDigit
  | cs => cs

/-- Trailing `±HH:MM` UTC-offset part of an ISO string, or the end of input
for a naive datetime. -/
def parseOffsetPart : List Char → Option (Option Int)
  | [] => some none
  | sign :: rest =>
    if sign = '+' || sign = '-' then
      match parse2Digits rest with
      | some (oh, rest1) =>
        match expectChar ':' rest1 with
        | some rest2 =>
          match parse2Digits rest2 with
          | some (om, rest3) =>
            if rest3.isEmpty && oh < 24 && om < 60 then
              some (some ((if sign = '-' then -1 else 1) * ((oh : Int) * 60 + om)))
            else none
          | none => none
        | none => none
      | none => none
    else none

/-- Time-of-day part `HH:MM[:SS[.ffffff]]` followed by an optional offset. -/
def parseTimePart (cs : List Char) : Option (Nat × Nat × Nat × Option Int) := do
  let (h, r1) ← parse2Digits cs
  let r2 ← expectChar ':' r1
  let (mi, r3) ← parse2Digits r2
  let (sec, r4) ←
    match expectChar ':' r3 with
    | some r =>
      match parse2Digits r with
      | some (s, r5) => some (s, dropFraction r5)
      | none => none
    | none => some (0, r3)
  let off ← parseOffsetPart r4
  if h < 24 && mi < 60 && sec < 60 then some (h, mi, sec, off) else none

/-- `datetime.fromisoformat` (pre-3.11 subset): `YYYY-MM-DD`, then optionally
a single separator character and `HH:MM[:SS[.ffffff]][±HH:MM]`.  The literal
`Z` suffix is NOT accepted — which is why the source replaces `Z` with
`+00:00` before calling it.  Returns `none` where Python raises ValueError. -/
def fromisoformat (s : String) : Option PyDateTime := do
  let cs := s.toList
  let (y, r1) ← parse4Digits cs
  let r2 ← expectChar '-' r1
  let (mo, r3) ← parse2Digits r2
  let r4 ← expectChar '-' r3
  let (d, r5) ← parse2Digits r4
  if mo < 1 || mo > 12 || d < 1 || d > daysInMonth y mo then none
  else
    match r5 with
    | [] => some { year := y, month := mo, day := d, hour := 0, minute := 0, second := 0, tzOffsetMinutes := none }
    | _sep :: r6 => do
      let (h, mi, sec, off) ← parseTimePart r6
      some { year := y, month := mo, day := d, hour := h, minute := mi, second := sec, tzOffsetMinutes := off }

/-- Python `s.replace('Z', '+00:00')` as used on ISO strings before parsing
(structurally recursive model of `str.replace` for this single-char pattern). -/
def replaceZChars : List Char → List Char
  | [] => []
  | x :: xs => if x = 'Z' then '+' :: '0' :: '0' :: ':' :: '0' :: '0' :: replaceZChars xs
               else x :: replaceZChars xs

/-- Python `s.replace('Z', '+00:00')`. -/
def pyReplaceZ (s : String) : String := String.mk (replaceZChars s.toList)

/-- `django.utils.timezone.localtime(dt)` with the current timezone modelled
as UTC: shift an aware datetime to offset zero.  (The call sites only pass
aware datetimes.) -/
def localtimeUTC (dt : PyDateTime) : PyDateTime :=
  match dt.tzOffsetMinutes with
  | none => dt
  | some off =>
    let total := daysFromCivil dt.year dt.month dt.day * 1440 + (dt.hour : Int) * 60 + dt.minute - off
    let days := total.fdiv 1440
    let mins := total - days * 1440
    let (y, m, d) := civilFromDays days
    { year := y.toNat, month := m.toNat, day := d.toNat,
      hour := (mins / 60).toNat, minute := (mins % 60).toNat,
      second := dt.second, tzOffsetMinutes := some 0 }

/-- `timezone.make_aware(dt)` with the current timezone modelled as UTC. -/
def makeAware (dt : PyDateTime) : PyDateTime :=
  { dt with tzOffsetMinutes := some 0 }

/-- `timezone.make_aware(datetime.combine(date, datetime.min.time()))`:
the sync-requested date at midnight, aware. -/
def midnightOf (d : PyDate) : PyDateTime :=
  makeAware { year := d.year, month := d.month, day := d.day, hour := 0, minute := 0, second := 0, tzOffsetMinutes := none }

/-- Left-pad a numeral with zeros. -/
def padNum (width n : Nat) : String :=
  let s := toString n
  let k := width - s.length
  String.mk (List.replicate k '0') ++ s

/-- `date.isoformat()` / `str(date)`: `YYYY-MM-DD`. -/
def isoDate (d : PyDate) : String :=
  padNum 4 d.year ++ "-" ++ padNum 2 d.month ++ "-" ++ padNum 2 d.day

/-- Python `league.upper()` (structurally recursive model of `str.upper`). -/
def pyToUpper (s : String) : String := String.mk (s.toList.map Char.toUpper)

/-- `ESPNClient.SPORT_MAPPINGS` entry: the (sport, league-slug) endpoint pair. -/
structure SportMap where
  sport : String
  leagueSlug : String
deriving DecidableEq, Repr

/-- `ESPNClient.SPORT_MAPPINGS`. -/
def SPORT_MAPPINGS : List (String × SportMap) :=
  [("NFL", { sport := "football", leagueSlug := "nfl" }),
   ("NBA", { sport := "basketball", leagueSlug := "nba" }),
   ("MLB", { sport := "baseball", leagueSlug := "mlb" }),
   ("NHL", { sport := "hockey", leagueSlug := "nhl" }),
   ("NCAAF", { sport := "football", leagueSlug := "college-football" }),
   ("NCAAB", { sport := "basketball", leagueSlug := "mens-college-basketball" })]

/-- `ESPNClient.STATUS_MAPPINGS`: the class-level upstream-status table. -/
def STATUS_MAPPINGS : List (String × String) :=
  [("STATUS_SCHEDULED", "scheduled"),
   ("STATUS_IN_PROGRESS", "live"),
   ("STATUS_HALFTIME", "live"),
   ("STATUS_FINAL", "final"),
   ("STATUS_FULL_TIME", "final"),
   ("STATUS_POSTPONED", "postponed"),
   ("STATUS_CANCELED", "cancelled"),
   ("STATUS_CANCELLED", "cancelled")]

/-- `ESPNClient.normalize_status`: table lookup defaulting to `scheduled`. -/
def normalize_status (espn_status : String) : String :=
  (STATUS_MAPPINGS.lookup espn_status).getD "scheduled"

/-- The local `status_map` dict inside `ESPNClient._parse_scoreboard_event` —
note it differs from `STATUS_MAPPINGS`: `STATUS_IN_PROGRESS` maps to
`in_progress` (not `live`) and `STATUS_SUSPENDED` to `suspended`. -/
def eventStatusTable : List (String × String) :=
  [("STATUS_SCHEDULED", "scheduled"),
   ("STATUS_IN_PROGRESS", "in_progress"),
   ("STATUS_FINAL", "final"),
   ("STATUS_POSTPONED", "postponed"),
   ("STATUS_CANCELED", "cancelled"),
   ("STATUS_SUSPENDED", "suspended")]

/-- The `for stat in ...: if stat.get('name') == stat_name: return ...`
loop body of the `get_stat` closure in `_parse_scoreboard_event`. -/
def getStatFromList : List Json → String → Json
  | [], _ => .str "0"
  | stat :: rest, statName =>
    if jstrEq (stat.getN "name") statName then stat.getD "displayValue" (.str "0")
    else getStatFromList rest statName

/-- The `get_stat` closure of `_parse_scoreboard_event`: returns the literal
string `0` for games that have not started, else scans the competitor's
`statistics` array. -/
def getStat (status : String) (competitor : Json) (statName : String) : Except Err Json := do
  if status = "scheduled" || status = "postponed" || status = "cancelled" then
    .ok (.str "0")
  else do
    let stats ← Json.asArr (competitor.getD "statistics" (.arr []))
    .ok (getStatFromList stats statName)

/-- The `situation` dict built by `_parse_scoreboard_event` when
`competition.get('situation')` is truthy. -/
def situationOf (sit : Json) : Json :=
  Json.obj
    [("balls", sit.getN "balls"),
     ("strikes", sit.getN "strikes"),
     ("outs", sit.getN "outs"),
     ("pitcher",
       if (sit.getN "pitcher").truthy then
         Json.obj
           [("name", ((sit.getD "pitcher" (.obj [])).getD "athlete" (.obj [])).getN "shortName"),
            ("summary", (sit.getD "pitcher" (.obj [])).getN "summary")]
       else .null),
     ("batter",
       if (sit.getN "batter").truthy then
         Json.obj
           [("name", ((sit.getD "batter" (.obj [])).getD "athlete" (.obj [])).getN "shortName"),
            ("summary", (sit.getD "batter" (.obj [])).getN "summary")]
       else .null),
     ("on_base", Json.obj
       [("first", sit.getD "onFirst" (.bool false)),
        ("second", sit.getD "onSecond" (.bool false)),
        ("third", sit.getD "onThird" (.bool false))])]

/-- The `for broadcast in broadcasts` loop of `_parse_scoreboard_event`:
threads the primary network (first non-empty `names[0]`) and accumulates
`broadcast_info` entries. -/
def broadcastsFold : List Json → Json → List Json → Except Err (Json × List Json)
  | [], net, info => .ok (net, info)
  | b :: rest, net, info => do
    let network := b.getD "market" (.str "")
    let names := b.getD "names" (.arr [])
    if names.truthy then do
      let net2 ← if net.truthy then pure net else names.listIdx 0
      broadcastsFold rest net2 (info ++ [Json.obj [("market", network), ("networks", names)]])
    else
      broadcastsFold rest net info

/-- Python `dict[k] = v`: replace if present, append otherwise. -/
def dictSet (kvs : List (String × Json)) (k : String) (v : Json) : List (String × Json) :=
  if kvs.any (fun kv => kv.1 == k) then kvs.map (fun kv => if kv.1 == k then (k, v) else kv)
  else kvs ++ [(k, v)]

/-- The `for stat in probable.get('statistics', [])` dict-building loop of
`_parse_scoreboard_event` (stat keys are strings in the modelled payloads). -/
def pitcherStatsOf : List Json → List (String × Json) → List (String × Json)
  | [], acc => acc
  | stat :: rest, acc =>
    let statName := stat.getD "abbreviation" (.str "")
    let statValue := stat.getD "displayValue" (.str "")
    if statName.truthy && statValue.truthy then
      match statName with
      | .str s => pitcherStatsOf rest (dictSet acc s statValue)
      | _ => pitcherStatsOf rest acc
    else pitcherStatsOf rest acc

/-- The four pitcher variables threaded by `_parse_scoreboard_event`. -/
structure PitcherAcc where
  home_pitcher_name : Json
  away_pitcher_name : Json
  home_pitcher_stats : Json
  away_pitcher_stats : Json
deriving Repr

/-- One `probable` entry of the probable-pitchers loop. -/
def probableStep (competitor : Json) (acc : PitcherAcc) (probable : Json) : Except Err PitcherAcc := do
  if jstrEq (probable.getN "name") "probableStartingPitcher" then
    let athlete := probable.getD "athlete" (.obj [])
    let pitcher_name := athlete.getD "shortName" (.str "")
    let statsList ← Json.asArr (probable.getD "statistics" (.arr []))
    let stats := pitcherStatsOf statsList []
    let statsJson := if stats.isEmpty then Json.null else Json.obj stats
    if jstrEq (competitor.getN "homeAway") "home" then
      .ok { acc with home_pitcher_name := pitcher_name, home_pitcher_stats := statsJson }
    else
      .ok { acc with away_pitcher_name := pitcher_name, away_pitcher_stats := statsJson }
  else .ok acc

/-- One competitor of the probable-pitchers loop. -/
def probablesCompetitor (acc : PitcherAcc) (competitor : Json) : Except Err PitcherAcc := do
  let probables ← Json.asArr (competitor.getD "probables" (.arr []))
  probables.foldlM (probableStep competitor) acc

/-- The full `for competitor in competitors` probable-pitchers loop. -/
def probablesAll (competitors : List Json) : Except Err PitcherAcc :=
  competitors.foldlM probablesCompetitor
    { home_pitcher_name := .str "", away_pitcher_name := .str "",
      home_pitcher_stats := .null, away_pitcher_stats := .null }

/-- `ESPNClient._parse_scoreboard_event`: parse one raw ESPN event into the
standard game dict.  Score coercion `int(competitor.get('score', 0))` sits
outside any exception handler, so a null or non-numeric score raises. -/
def parseScoreboardEvent (event : Json) : Except Err Json := do
  let competition ← (event.getD "competitions" (.arr [.obj []])).listIdx 0
  let competitors ← Json.asArr (competition.getD "competitors" (.arr []))
  let home_competitor := (competitors.find? (fun c => jstrEq (c.getN "homeAway") "home")).getD (.obj [])
  let away_competitor := (competitors.find? (fun c => jstrEq (c.getN "homeAway") "away")).getD (.obj [])
  let status_data := competition.getD "status" (.obj [])
  let status_type := (status_data.getD "type" (.obj [])).getD "name" (.str "scheduled")
  let status :=
    match status_type with
    | .str s => (eventStatusTable.lookup s).getD "scheduled"
    | _ => "scheduled"
  let situation :=
    if (competition.getN "situation").truthy then situationOf (competition.getN "situation") else Json.null
  let home_linescores := (← Json.asArr (home_competitor.getD "linescores" (.arr []))).map
    (fun ls => ls.getD "displayValue" (.str "-"))
  let away_linescores := (← Json.asArr (away_competitor.getD "linescores" (.arr []))).map
    (fun ls => ls.getD "displayValue" (.str "-"))
  let home_hits ← getStat status home_competitor "hits"
  let home_errors ← getStat status home_competitor "errors"
  let away_hits ← getStat status away_competitor "hits"
  let away_errors ← getStat status away_competitor "errors"
  let venue := competition.getD "venue" (.obj [])
  let venue_name := venue.getD "fullName" (.str "")
  let venue_city := (venue.getD "address" (.obj [])).getD "city" (.str "")
  let venue_state := (venue.getD "address" (.obj [])).getD "state" (.str "")
  let venue_capacity := venue.getN "capacity"
  let attendance := competition.getN "attendance"
  let broadcasts ← Json.asArr (competition.getD "broadcasts" (.arr []))
  let (broadcast_network, broadcast_info) ← broadcastsFold broadcasts (.str "") []
  let pitchers ← probablesAll competitors
  let home_score ← pyInt (home_competitor.getD "score" (.num 0))
  let away_score ← pyInt (away_competitor.getD "score" (.num 0))
  .ok (Json.obj
    [("id", event.getN "id"),
     ("home_team", Json.obj
       [("id", home_competitor.getN "id"),
        ("abbreviation", (home_competitor.getD "team" (.obj [])).getN "abbreviation"),
        ("name", (home_competitor.getD "team" (.obj [])).getN "displayName"),
        ("logo", (home_competitor.getD "team" (.obj [])).getN "logo")]),
     ("away_team", Json.obj
       [("id", away_competitor.getN "id"),
        ("abbreviation", (away_competitor.getD "team" (.obj [])).getN "abbreviation"),
        ("name", (away_competitor.getD "team" (.obj [])).getN "displayName"),
        ("logo", (away_competitor.getD "team" (.obj [])).getN "logo")]),
     ("home_score", .num home_score),
     ("away_score", .num away_score),
     ("status", .str status),
     ("scheduled_time", competition.getN "date"),
     ("period", status_data.getN "period"),
     ("clock", status_data.getD "displayClock" (.str "")),
     ("situation", situation),
     ("box_score", Json.obj
       [("home_linescores", .arr home_linescores),
        ("away_linescores", .arr away_linescores),
        ("home_stats", Json.obj [("hits", home_hits), ("errors", home_errors)]),
        ("away_stats", Json.obj [("hits", away_hits), ("errors", away_errors)])]),
     ("venue_name", venue_name),
     ("venue_city", venue_city),
     ("venue_state", venue_state),
     ("venue_capacity", venue_capacity),
     ("attendance", attendance),
     ("broadcast_network", broadcast_network),
     ("broadcast_info", if broadcast_info.isEmpty then Json.null else .arr broadcast_info),
     ("home_pitcher_name", pitchers.home_pitcher_name),
     ("away_pitcher_name", pitchers.away_pitcher_name),
     ("home_pitcher_stats", pitchers.home_pitcher_stats),
     ("away_pitcher_stats", pitchers.away_pitcher_stats)])

/-- An HTTP request the client would issue (endpoint plus query parameters).
The cache is modelled as disabled, so each `_make_request` is one request. -/
structure Request where
  endpoint : String
  params : List (String × String)
deriving DecidableEq, Repr

/-- `ESPNClient.get_scoreboard`: validates the (uppercased) league before any
request; on success issues a single request and maps
`_parse_scoreboard_event` over the response's events.  The first component
lists the network requests attempted. -/
def get_scoreboard (env : Request → Json) (league : String) (date : Option String) (limit : Int) :
    List Request × Except Err (List Json) :=
  match SPORT_MAPPINGS.lookup (pyToUpper league) with
  | none => ([], .error (.unsupportedLeague league))
  | some m =>
    let endpoint := m.sport ++ "/" ++ m.leagueSlug ++ "/scoreboard"
    let params := ("limit", toString limit) :: (match date with | some d => [("dates", d)] | none => [])
    let req : Request := { endpoint := endpoint, params := params }
    let response := env req
    let result := do
      let events ← Json.asArr (response.getD "events" (.arr []))
      mapExcept parseScoreboardEvent events
    ([req], result)

/-- `ESPNClient.get_teams`: validates the league EXACTLY as given (no
uppercasing), then issues a single request and returns the raw payload. -/
def get_teams (env : Request → Json) (league : String) (limit : Int) :
    List Request × Except Err Json :=
  match SPORT_MAPPINGS.lookup league with
  | none => ([], .error (.unsupportedLeague league))
  | some m =>
    let req : Request :=
      { endpoint := m.sport ++ "/" ++ m.leagueSlug ++ "/teams", params := [("limit", toString limit)] }
    ([req], .ok (env req))

/-- `ESPNClient.get_team_schedule`: same exact-match league validation as
`get_teams`. -/
def get_team_schedule (env : Request → Json) (league : String) (team_id : String) (season : Option Int) :
    List Request × Except Err Json :=
  match SPORT_MAPPINGS.lookup league with
  | none => ([], .error (.unsupportedLeague league))
  | some m =>
    let params := match season with | some s => [("season", toString s)] | none => []
    let req : Request :=
      { endpoint := m.sport ++ "/" ++ m.leagueSlug ++ "/teams/" ++ team_id ++ "/schedule", params := params }
    ([req], .ok (env req))

/-- The team sub-dict built by `ESPNClient.parse_scoreboard`. -/
structure TeamStub where
  external_id : Json
  name : Json
  abbreviation : Json
deriving Repr

/-- One canonical period-score record built by `parse_scoreboard`
(`enumerate(zip(...), start=1)` gives the 1-based period index). -/
structure PeriodScoreRec where
  period : Nat
  home_score : Int
  away_score : Int
deriving DecidableEq, Repr

/-- The normalized game dict built by `ESPNClient.parse_scoreboard`. -/
structure ParsedGame where
  external_id : Json
  game_date : PyDateTime
  scheduled_time : Json
  status : String
  home_team : TeamStub
  away_team : TeamStub
  home_score : Int
  away_score : Int
  period_scores : List PeriodScoreRec
deriving Repr

/-- The `for period, (home_ls, away_ls) in enumerate(zip(...), start=1)` loop
of `parse_scoreboard`: coerces each side's `value` (default 0) with `int`. -/
def parsePeriodScoresAux : Nat → List (Json × Json) → Except Err (List PeriodScoreRec)
  | _, [] => .ok []
  | p, (h, a) :: rest => do
    let hs ← pyInt (h.getD "value" (.num 0))
    let as2 ← pyInt (a.getD "value" (.num 0))
    let tail ← parsePeriodScoresAux (p + 1) rest
    .ok ({ period := p, home_score := hs, away_score := as2 } :: tail)

/-- Period-score extraction of `parse_scoreboard`: zip-shortest over the two
linescore arrays, periods numbered from 1. -/
def parsePeriodScores (hls als : List Json) : Except Err (List PeriodScoreRec) :=
  parsePeriodScoresAux 1 (hls.zip als)

/-- The body of the `for event in events` loop of `parse_scoreboard`, up to
the exception handler: parse one event into a normalized game dict. -/
def parseOneEvent (event : Json) : Except Err ParsedGame := do
  let competitions ← event.idx "competitions"
  let competition ← competitions.listIdx 0
  let status ← competition.idx "status"
  let competitorsJ ← competition.idx "competitors"
  let competitors ← Json.asArr competitorsJ
  let home_team ← findNext (fun c => do pure (jstrEq (← c.idx "homeAway") "home")) competitors
  let away_team ← findNext (fun c => do pure (jstrEq (← c.idx "homeAway") "away")) competitors
  let dateStr ← (← event.idx "date").asStr
  let game_date ←
    match fromisoformat (pyReplaceZ dateStr) with
    | some dt => pure dt
    | none => throw Err.valueError
  let hls ← Json.asArr (home_team.getD "linescores" (.arr []))
  let als ← Json.asArr (away_team.getD "linescores" (.arr []))
  let period_scores ← parsePeriodScores hls als
  let ext ← event.idx "id"
  let statusName ← (← status.idx "type").idx "name"
  let normStatus :=
    match statusName with
    | .str s => normalize_status s
    | _ => "scheduled"
  let hId ← home_team.idx "id"
  let hT ← home_team.idx "team"
  let hName ← hT.idx "displayName"
  let hAbbr ← hT.idx "abbreviation"
  let aId ← away_team.idx "id"
  let aT ← away_team.idx "team"
  let aName ← aT.idx "displayName"
  let aAbbr ← aT.idx "abbreviation"
  let hScore ← pyInt (home_team.getD "score" (.num 0))
  let aScore ← pyInt (away_team.getD "score" (.num 0))
  .ok { external_id := ext, game_date := game_date, scheduled_time := .str dateStr,
        status := normStatus,
        home_team := { external_id := hId, name := hName, abbreviation := hAbbr },
        away_team := { external_id := aId, name := aName, abbreviation := aAbbr },
        home_score := hScore, away_score := aScore, period_scores := period_scores }

/-- The exception classes caught by `parse_scoreboard`'s per-event handler:
`(KeyError, IndexError, ValueError)`.  TypeError, AttributeError and
StopIteration are NOT caught and abort the whole batch. -/
def caughtByParseScoreboard : Err → Bool
  | .keyError _ => true
  | .indexError => true
  | .valueError => true
  | _ => false

/-- The `for event in events` loop of `parse_scoreboard`: a caught parse
error skips the event, anything else propagates. -/
def parseScoreboardLoop : List Json → Except Err (List ParsedGame)
  | [] => .ok []
  | e :: rest =>
    match parseOneEvent e with
    | .ok g => do
      let gs ← parseScoreboardLoop rest
      .ok (g :: gs)
    | .error err =>
      if caughtByParseScoreboard err then parseScoreboardLoop rest
      else .error err

/-- `ESPNClient.parse_scoreboard`. -/
def parse_scoreboard (data : Json) : Except Err (List ParsedGame) := do
  let events ← Json.asArr (data.getD "events" (.arr []))
  parseScoreboardLoop events

/-- A `League` row (`apps/core/models.py`). -/
structure LeagueRow where
  pk : Nat
  name : String
  abbreviation : String
  sport_type : String
deriving DecidableEq, Repr

/-- A `Team` row, with the fields touched by the game sync. -/
structure TeamRow where
  pk : Nat
  league : Nat
  external_id : Json
  name : Json
  abbreviation : Json
  logo_url : Json
deriving Repr

/-- A `Game` row, with every field `SyncService.sync_games` writes. -/
structure GameRow where
  pk : Nat
  external_id : Json
  league : Nat
  home_team : Nat
  away_team : Nat
  game_date : PyDateTime
  scheduled_time : Option PyDateTime
  status : Json
  home_score : Json
  away_score : Json
  period : Json
  time_remaining : Json
  situation : Json
  box_score : Json
  venue_name : Json
  venue_city : Json
  venue_state : Json
  venue_capacity : Json
  attendance : Json
  broadcast_network : Json
  broadcast_info : Json
  home_pitcher_name : Json
  away_pitcher_name : Json
  home_pitcher_stats : Json
  away_pitcher_stats : Json
deriving Repr

/-- A `Score` (period score) row. -/
structure ScoreRow where
  pk : Nat
  game : Nat
  period : Json
  home_score : Json
  away_score : Json
deriving Repr

/-- A `Player` row, with the fields `sync_team_roster` writes. -/
structure PlayerRow where
  pk : Nat
  external_id : Json
  team : Nat
  first_name : Json
  last_name : Json
  full_name : Json
  display_name : Json
  short_name : Json
  jersey_number : Json
  position : Json
  position_abbreviation : Json
  height : Json
  weight : Json
  age : Json
  headshot_url : Json
  status : Json
deriving Repr

/-- The persistent store: the row sets the sync service reads and writes,
plus a surrogate primary-key counter. -/
structure DB where
  leagues : List LeagueRow
  teams : List TeamRow
  games : List GameRow
  scores : List ScoreRow
  players : List PlayerRow
  nextPk : Nat
deriving Repr

/-- `League.objects.get(abbreviation=...)`: raises `League.DoesNotExist`. -/
def leagueGet (db : DB) (abbr : String) : Except Err LeagueRow :=
  match db.leagues.find? (fun l => l.abbreviation == abbr) with
  | some l => .ok l
  | none => .error .leagueDoesNotExist

/-- `SyncService._get_or_create_team`: a get-or-create keyed by
(external_id, league); the defaults (and their key lookups) are evaluated
before the query, as Python evaluates the call's arguments first. -/
def getOrCreateTeam (league : LeagueRow) (team_data : Json) (db : DB) :
    Except Err (TeamRow × DB) := do
  let tid ← team_data.idx "id"
  let tname ← team_data.idx "name"
  let tabbr ← team_data.idx "abbreviation"
  let tlogo := team_data.getN "logo"
  match db.teams.find? (fun t => Json.beq t.external_id tid && t.league == league.pk) with
  | some t => .ok (t, db)
  | none =>
    let t : TeamRow := { pk := db.nextPk, league := league.pk, external_id := tid,
                         name := tname, abbreviation := tabbr, logo_url := tlogo }
    .ok (t, { db with teams := db.teams ++ [t], nextPk := db.nextPk + 1 })

/-- The scheduled-time block of `sync_games`: when `scheduled_time` is truthy
it is `.replace('Z', '+00:00')`-ed (AttributeError on a non-string is not
caught) and parsed; a parse failure is caught (`ValueError`/`TypeError`) and
leaves the value `None`; an aware result goes through `localtime`, a naive
one through `make_aware`. -/
def computeScheduledTime (game_data : Json) : Except Err (Option PyDateTime) := do
  let raw := game_data.getN "scheduled_time"
  if raw.truthy then do
    let s ← raw.asStr
    match fromisoformat (pyReplaceZ s) with
    | some dt =>
      if dt.tzOffsetMinutes.isSome then .ok (some (localtimeUTC dt))
      else .ok (some (makeAware dt))
    | none => .ok none
  else .ok none

/-- `Score.objects.create(...)` for one period-score dict: the three keys are
required (`score_data["period"]` etc. raise KeyError when absent). -/
def scoreCreate (gamePk : Nat) (acc : DB) (score_data : Json) : Except Err DB := do
  let p ← score_data.idx "period"
  let hs ← score_data.idx "home_score"
  let as2 ← score_data.idx "away_score"
  let row : ScoreRow := { pk := acc.nextPk, game := gamePk, period := p, home_score := hs, away_score := as2 }
  .ok { acc with scores := acc.scores ++ [row], nextPk := acc.nextPk + 1 }

/-- `SyncService._sync_period_scores`: delete every existing period-score row
of the game, then create one row per entry of the new list. -/
def syncPeriodScores (gamePk : Nat) (period_scores : List Json) (db : DB) : Except Err DB :=
  let db1 := { db with scores := db.scores.filter (fun s => s.game != gamePk) }
  period_scores.foldlM (scoreCreate gamePk) db1

/-- The `if game_data.get("period_scores"):` guard of `sync_games`: period
scores are replaced only when the payload's list is truthy, i.e. non-empty. -/
def maybeSyncScores (gamePk : Nat) (game_data : Json) (db : DB) : Except Err DB :=
  if (game_data.getN "period_scores").truthy then do
    let lst ← Json.asArr (game_data.getN "period_scores")
    syncPeriodScores gamePk lst db
  else .ok db

/-- The `Game` row written by `sync_games`'s `update_or_create` for one
payload dict, given the already-resolved teams, parsed scheduled time, and
the `game_date` (always the sync-requested date at midnight). -/
def gameRowOf (pk : Nat) (gid : Json) (league : LeagueRow) (home_team away_team : TeamRow)
    (game_date : PyDateTime) (scheduled_time : Option PyDateTime)
    (gstatus ghome gaway : Json) (game_data : Json) : GameRow :=
  { pk := pk, external_id := gid, league := league.pk,
    home_team := home_team.pk, away_team := away_team.pk,
    game_date := game_date, scheduled_time := scheduled_time,
    status := gstatus, home_score := ghome, away_score := gaway,
    period := game_data.getN "period",
    time_remaining := game_data.getD "clock" (.str ""),
    situation := game_data.getN "situation",
    box_score := game_data.getN "box_score",
    venue_name := game_data.getD "venue_name" (.str ""),
    venue_city := game_data.getD "venue_city" (.str ""),
    venue_state := game_data.getD "venue_state" (.str ""),
    venue_capacity := game_data.getN "venue_capacity",
    attendance := game_data.getN "attendance",
    broadcast_network := game_data.getD "broadcast_network" (.str ""),
    broadcast_info := game_data.getN "broadcast_info",
    home_pitcher_name := game_data.getD "home_pitcher_name" (.str ""),
    away_pitcher_name := game_data.getD "away_pitcher_name" (.str ""),
    home_pitcher_stats := game_data.getN "home_pitcher_stats",
    away_pitcher_stats := game_data.getN "away_pitcher_stats" }

/-- The body of the `for game_data in scoreboard_data` loop of `sync_games`:
resolve teams, parse the scheduled time, set `game_date` to the requested
date at midnight, upsert the game by external_id, then maybe replace its
period scores. -/
def syncOneGame (league : LeagueRow) (date : PyDate)
    (acc : DB × Nat × Nat) (game_data : Json) : Except Err (DB × Nat × Nat) := do
  let (db0, created, updated) := acc
  let htData ← game_data.idx "home_team"
  let (home_team, db1) ← getOrCreateTeam league htData db0
  let atData ← game_data.idx "away_team"
  let (away_team, db2) ← getOrCreateTeam league atData db1
  let scheduled_time ← computeScheduledTime game_data
  let game_date := midnightOf date
  let gid ← game_data.idx "id"
  let gstatus ← game_data.idx "status"
  let ghome ← game_data.idx "home_score"
  let gaway ← game_data.idx "away_score"
  match db2.games.find? (fun g => Json.beq g.external_id gid) with
  | some g =>
    let g2 := gameRowOf g.pk gid league home_team away_team game_date scheduled_time gstatus ghome gaway game_data
    let db3 := { db2 with games := db2.games.map (fun x => if x.pk == g.pk then g2 else x) }
    let db4 ← maybeSyncScores g.pk game_data db3
    .ok (db4, created, updated + 1)
  | none =>
    let g2 := gameRowOf db2.nextPk gid league home_team away_team game_date scheduled_time gstatus ghome gaway game_data
    let db3 := { db2 with games := db2.games ++ [g2], nextPk := db2.nextPk + 1 }
    let db4 ← maybeSyncScores g2.pk game_data db3
    .ok (db4, created + 1, updated)

/-- The body of `SyncService.sync_games` (inside `@transaction.atomic`):
league lookup, scoreboard fetch (the injected client), then the per-game
loop.  The client models `espn_client.get_scoreboard`. -/
def syncGamesBody (client : String → PyDate → Except Err (List Json))
    (league_abbr : String) (date : PyDate) (db : DB) : Except Err (DB × Nat × Nat) := do
  let league ← leagueGet db league_abbr
  let games ← client league_abbr date
  games.foldlM (syncOneGame league date) (db, 0, 0)

/-- `SyncService.sync_games` as observed by its caller: `@transaction.atomic`
rolls the store back to its initial state when the body raises, and the
exception is re-raised. -/
def sync_games (client : String → PyDate → Except Err (List Json))
    (league_abbr : String) (date : PyDate) (db : DB) : DB × Except Err (Nat × Nat) :=
  match syncGamesBody client league_abbr date db with
  | .ok (db2, c, u) => (db2, .ok (c, u))
  | .error e => (db, .error e)

/-- The `for league in leagues` loop of `sync_live_games`: both the
`League.DoesNotExist` handler and the generic handler record `(0, 0)` for
the failed league and continue with the rest. -/
def syncLeaguesLoop (client : String → PyDate → Except Err (List Json)) (today : PyDate) :
    List String → DB → DB × List (String × Nat × Nat)
  | [], db => (db, [])
  | l :: rest, db =>
    match sync_games client l today db with
    | (db2, .ok (c, u)) =>
      let (db3, r) := syncLeaguesLoop client today rest db2
      (db3, (l, c, u) :: r)
    | (db2, .error _) =>
      let (db3, r) := syncLeaguesLoop client today rest db2
      (db3, (l, 0, 0) :: r)

/-- `SyncService.sync_live_games`. -/
def sync_live_games (client : String → PyDate → Except Err (List Json)) (today : PyDate)
    (league_abbr : Option String) (db : DB) : DB × List (String × Nat × Nat) :=
  let leagues := match league_abbr with | some l => [l] | none => ["NFL", "NBA", "MLB", "NHL"]
  syncLeaguesLoop client today leagues db

/-- The inclusive day range iterated by `sync_date_range`'s while loop. -/
def dateRange (s e : PyDate) : List PyDate :=
  let n := daysFromCivil e.year e.month e.day - daysFromCivil s.year s.month s.day
  (List.range (n + 1).toNat).map (fun i => addDays s i)

/-- The `while current_date <= end` loop of `sync_date_range`: one unit per
date, `(0, 0)` recorded for a failed date, keyed by `isoformat()`. -/
def syncDatesLoop (client : String → PyDate → Except Err (List Json)) (league_abbr : String) :
    List PyDate → DB → DB × List (String × Nat × Nat)
  | [], db => (db, [])
  | d :: rest, db =>
    match sync_games client league_abbr d db with
    | (db2, .ok (c, u)) =>
      let (db3, r) := syncDatesLoop client league_abbr rest db2
      (db3, (isoDate d, c, u) :: r)
    | (db2, .error _) =>
      let (db3, r) := syncDatesLoop client league_abbr rest db2
      (db3, (isoDate d, 0, 0) :: r)

/-- `SyncService.sync_date_range`. -/
def sync_date_range (client : String → PyDate → Except Err (List Json))
    (league_abbr : String) (start_date end_date : PyDate) (db : DB) :
    DB × List (String × Nat × Nat) :=
  syncDatesLoop client league_abbr (dateRange start_date end_date) db

/-- The fields `sync_team_roster` writes for one athlete dict (the defaults
of its `Player.objects.update_or_create`). -/
def playerFields (team : TeamRow) (pk : Nat) (external_id : Json) (a : Json) : PlayerRow :=
  { pk := pk, external_id := external_id, team := team.pk,
    first_name := a.getD "first_name" (.str ""),
    last_name := a.getD "last_name" (.str ""),
    full_name := a.getD "full_name" (.str ""),
    display_name := a.getD "display_name" (.str ""),
    short_name := a.getD "short_name" (.str ""),
    jersey_number := a.getD "jersey_number" (.str ""),
    position := a.getD "position" (.str ""),
    position_abbreviation := a.getD "position_abbreviation" (.str ""),
    height := a.getD "height" (.str ""),
    weight := a.getD "weight" (.str ""),
    age := a.getN "age",
    headshot_url := a.getN "headshot_url",
    status := a.getD "status" (.str "Active") }

/-- One athlete of the roster loop: a full upsert keyed by the athlete's
external_id (required key), overwriting every field — including the team
reference — when the player already exists. -/
def rosterStep (team : TeamRow) (acc : DB × Nat × Nat) (athlete_data : Json) :
    Except Err (DB × Nat × Nat) := do
  let (db, created, updated) := acc
  let aid ← athlete_data.idx "external_id"
  match db.players.find? (fun p => Json.beq p.external_id aid) with
  | some p =>
    let p2 := playerFields team p.pk p.external_id athlete_data
    let db2 := { db with players := db.players.map (fun x => if x.pk == p.pk then p2 else x) }
    .ok (db2, created, updated + 1)
  | none =>
    let p2 := playerFields team db.nextPk aid athlete_data
    .ok ({ db with players := db.players ++ [p2], nextPk := db.nextPk + 1 }, created + 1, updated)

/-- `SyncService.sync_team_roster`: skipped with `(0, 0)` when the team has
no (truthy) external_id; otherwise the fetched roster's athletes are
upserted inside `transaction.atomic()`, and ANY exception — fetch or loop —
is caught, rolled back, and reported as `(0, 0)`. -/
def sync_team_roster (fetchRoster : Except Err Json) (team : TeamRow) (db : DB) :
    DB × Nat × Nat :=
  if !team.external_id.truthy then (db, 0, 0)
  else
    let body : Except Err (DB × Nat × Nat) := do
      let roster ← fetchRoster
      let athletes ← Json.asArr (roster.getD "athletes" (.arr []))
      athletes.foldlM (rosterStep team) (db, 0, 0)
    match body with
    | .ok (db2, c, u) => (db2, c, u)
    | .error _ => (db, 0, 0)

/-- The result dict of the Celery task `sync_daily_schedule`. -/
structure TaskResult where
  synced : Nat
  errors : List String
deriving DecidableEq, Repr

/-- A rendering of Python `str(e)` for the modelled exceptions. -/
def errText : Err → String
  | .keyError k => "KeyError: " ++ k
  | .indexError => "list index out of range"
  | .typeError => "TypeError"
  | .valueError => "ValueError"
  | .attrError => "AttributeError"
  | .stopIteration => "StopIteration"
  | .unsupportedLeague l => "Unsupported league: " ++ l
  | .leagueDoesNotExist => "League matching query does not exist."

/-- The per-unit error message recorded by `sync_daily_schedule`. -/
def dailyMsg (league : String) (d : PyDate) (e : Err) : String :=
  "Error syncing schedule for " ++ league ++ " on " ++ isoDate d ++ ": " ++ errText e

/-- The `for league ... for date ...` loop of the `sync_daily_schedule` task:
each failing unit appends one message and the loop continues; each
successful unit adds `len(games)` to `synced`, where `games` is the
`(created, updated)` TUPLE returned by `sync_games`, so it adds 2. -/
def dailyLoop (client : String → PyDate → Except Err (List Json)) :
    List (String × PyDate) → DB → Nat → List String → DB × TaskResult
  | [], db, synced, errors => (db, { synced := synced, errors := errors })
  | (l, d) :: rest, db, synced, errors =>
    match sync_games client l d db with
    | (db2, .ok _) => dailyLoop client rest db2 (synced + 2) errors
    | (db2, .error e) => dailyLoop client rest db2 synced (errors ++ [dailyMsg l d e])

/-- The Celery task `sync_daily_schedule` (`apps/data_ingestion/tasks.py`):
today and tomorrow for each of the four leagues. -/
def sync_daily_schedule (client : String → PyDate → Except Err (List Json))
    (today : PyDate) (db : DB) : DB × TaskResult :=
  let tomorrow := addDays today 1
  let units := (["NFL", "NBA", "MLB", "NHL"].map (fun l => [(l, today), (l, tomorrow)])).flatten
  dailyLoop client units db 0 []

/-- The NFL league row used by the concrete scenarios. -/
def nflLeague : LeagueRow :=
  { pk := 1, name := "National Football League", abbreviation := "NFL", sport_type := "football" }

/-- A store holding just the NFL league. -/
def db0 : DB :=
  { leagues := [nflLeague], teams := [], games := [], scores := [], players := [], nextPk := 2 }

/-- A store holding all four leagues of the multi-league jobs. -/
def db4 : DB :=
  { leagues :=
      [nflLeague,
       { pk := 2, name := "National Basketball Association", abbreviation := "NBA", sport_type := "basketball" },
       { pk := 3, name := "Major League Baseball", abbreviation := "MLB", sport_type := "baseball" },
       { pk := 4, name := "National Hockey League", abbreviation := "NHL", sport_type := "hockey" }],
    teams := [], games := [], scores := [], players := [], nextPk := 5 }

/-- Home-team dict of the sample scoreboard payload (mirrors the repository's
test fixture). -/
def kcTeam : Json :=
  .obj [("id", .str "KC"), ("name", .str "Kansas City Chiefs"),
        ("abbreviation", .str "KC"), ("logo", .str "kc.png")]

/-- Away-team dict of the sample scoreboard payload. -/
def bufTeam : Json :=
  .obj [("id", .str "BUF"), ("name", .str "Buffalo Bills"),
        ("abbreviation", .str "BUF"), ("logo", .str "buf.png")]

/-- A period-score dict for the sync-service payload. -/
def periodDict (p h a : Int) : Json :=
  .obj [("period", .num p), ("home_score", .num h), ("away_score", .num a)]

/-- A parsed-scoreboard game dict as handed to `sync_games`, parameterized by
the scheduled-time value and the period-score list. -/
def sampleGame (sched : Json) (ps : Json) : Json :=
  .obj [("id", .str "401547403"), ("home_team", kcTeam), ("away_team", bufTeam),
        ("scheduled_time", sched), ("status", .str "live"),
        ("home_score", .num 24), ("away_score", .num 21),
        ("period", .num 3), ("clock", .str "8:45"), ("period_scores", ps)]

/-- The sync-requested date of the concrete scenarios. -/
def reqDate : PyDate := { year := 2025, month := 10, day := 16 }

/-- A minimal raw ESPN event whose competition status-type name is `s`:
exercises the status path of `_parse_scoreboard_event`. -/
def mkStatusEvent (s : String) : Json :=
  .obj [("id", .str "e1"),
        ("competitions", .arr [.obj [("status", .obj [("type", .obj [("name", .str s)])])]])]

/-- A raw ESPN event whose home and away competitors carry the given
score values: exercises the score-coercion path of
`_parse_scoreboard_event`. -/
def mkScoreEvent (hs as2 : Json) : Json :=
  .obj [("id", .str "e2"),
        ("competitions", .arr
          [.obj [("competitors", .arr
             [.obj [("homeAway", .str "home"), ("score", hs)],
              .obj [("homeAway", .str "away"), ("score", as2)]])]])]

/-- A raw ESPN event with no score keys at all. -/
def mkNoScoreEvent : Json :=
  .obj [("id", .str "e3"),
        ("competitions", .arr
          [.obj [("competitors", .arr
             [.obj [("homeAway", .str "home")], .obj [("homeAway", .str "away")]])]])]

/-- A linescore entry with an integer value, as used by `parse_scoreboard`. -/
def mkLinescore (v : Int) : Json := .obj [("value", .num v)]

/-- A well-formed raw event for `parse_scoreboard`, parameterized by the two
linescore arrays. -/
def mkParseEvent (eid : String) (hls als : List Json) : Json :=
  .obj [("id", .str eid), ("date", .str "2024-09-08T17:00:00Z"),
        ("competitions", .arr
          [.obj [("status", .obj [("type", .obj [("name", .str "STATUS_IN_PROGRESS")])]),
                 ("competitors", .arr
                   [.obj [("homeAway", .str "home"), ("id", .str "1"),
                          ("team", .obj [("displayName", .str "Team A"), ("abbreviation", .str "A")]),
                          ("score", .str "24"), ("linescores", .arr hls)],
                    .obj [("homeAway", .str "away"), ("id", .str "2"),
                          ("team", .obj [("displayName", .str "Team B"), ("abbreviation", .str "B")]),
                          ("score", .str "21"), ("linescores", .arr als)]])]])]

/-- A raw event for `parse_scoreboard` that raises a caught ValueError:
its date string is unparseable. -/
def badDateEvent : Json :=
  .obj [("id", .str "bad"), ("date", .str "invalid-date"),
        ("competitions", .arr
          [.obj [("status", .obj [("type", .obj [("name", .str "STATUS_FINAL")])]),
                 ("competitors", .arr
                   [.obj [("homeAway", .str "home"), ("id", .str "1"),
                          ("team", .obj [("displayName", .str "Team A"), ("abbreviation", .str "A")])],
                    .obj [("homeAway", .str "away"), ("id", .str "2"),
                          ("team", .obj [("displayName", .str "Team B"), ("abbreviation", .str "B")])]])]])]

/-- A parseable scheduled-time payload value (UTC-zulu ISO string). -/
def schedStr : Json := .str "2025-10-15T20:00:00Z"

/-- The datetime `schedStr` parses and localizes to. -/
def schedParsed : PyDateTime :=
  { year := 2025, month := 10, day := 15, hour := 20, minute := 0, second := 0, tzOffsetMinutes := some 0 }

/-- A minimal parsed-scoreboard game dict (no period scores). -/
def mGame (gid : String) (sched : Json) : Json :=
  .obj [("id", .str gid), ("home_team", kcTeam), ("away_team", bufTeam),
        ("scheduled_time", sched), ("status", .str "scheduled"),
        ("home_score", .num 0), ("away_score", .num 0)]

/-- A client returning one fixed game record: the idempotence scenario. -/
def clientIdem : String → PyDate → Except Err (List Json) :=
  fun _ _ => .ok [mGame "401547403" schedStr]

/-- Statement-side projection of a period-score payload list to its
(period, home_score, away_score) triples, raising exactly where
`_sync_period_scores` would (missing keys). -/
def periodTriplesOf : List Json → Except Err (List (Json × Json × Json))
  | [] => .ok []
  | sd :: rest => do
    let p ← sd.idx "period"
    let hs ← sd.idx "home_score"
    let as2 ← sd.idx "away_score"
    let tail ← periodTriplesOf rest
    .ok ((p, hs, as2) :: tail)

/-- Specification-side description of the period-score zip (from the spec
wording): one record per zipped position, periods numbered from the given
start. -/
def specPeriodScores : Nat → List (Int × Int) → List PeriodScoreRec
  | _, [] => []
  | p, (h, a) :: rest =>
    { period := p, home_score := h, away_score := a } :: specPeriodScores (p + 1) rest

/-- Classifies exceptions that arise from payload-shape problems at parse
time, as opposed to the business errors raised by league validation or the
ORM. -/
def Err.isRuntime : Err → Bool
  | .unsupportedLeague _ => false
  | .leagueDoesNotExist => false
  | _ => true

/-- Two-game payload: a parseable scheduled_time and a malformed one. -/
def clientC1 : String → PyDate → Except Err (List Json) :=
  fun _ _ => .ok [mGame "g1" schedStr, mGame "g2" (.str "invalid-date")]

/-- Payload whose second game dict is empty: fails mid-unit. -/
def clientC10 : String → PyDate → Except Err (List Json) :=
  fun _ _ => .ok [mGame "g1" schedStr, Json.obj []]

/-- Payload with period scores for periods 1 and 2. -/
def clientP12 : String → PyDate → Except Err (List Json) :=
  fun _ _ => .ok [sampleGame schedStr (.arr [periodDict 1 7 0, periodDict 2 10 14])]

/-- Payload with a period score for period 1 only. -/
def clientP1 : String → PyDate → Except Err (List Json) :=
  fun _ _ => .ok [sampleGame schedStr (.arr [periodDict 1 7 0])]

/-- Payload whose period-score list is empty. -/
def clientPnone : String → PyDate → Except Err (List Json) :=
  fun _ _ => .ok [sampleGame schedStr (.arr [])]

/-- A client that raises on the NBA fetch and returns no games otherwise. -/
def clientFailNBA : String → PyDate → Except Err (List Json) :=
  fun l _ => if l == "NBA" then .error .typeError else .ok []

/-- A client that returns no games for every league. -/
def clientEmptyAll : String → PyDate → Except Err (List Json) :=
  fun _ _ => .ok []

/-- A network environment returning an empty scoreboard document. -/
def dummyEnv : Request → Json := fun _ => .obj [("events", .arr [])]

/-- Extract the store from a sync result, defaulting on error. -/
def okOr (d : DB) : Except Err DB → DB
  | .ok x => x
  | .error _ => d

/-- A stored team row with an external_id, for the roster scenarios. -/
def teamKC : TeamRow :=
  { pk := 10, league := 1, external_id := .str "KC", name := .str "Kansas City Chiefs",
    abbreviation := .str "KC", logo_url := .null }

/-- A roster athlete dict. -/
def athleteA : Json :=
  .obj [("external_id", .str "p1"), ("first_name", .str "Patrick"), ("last_name", .str "Mahomes"),
        ("position", .str "QB"), ("jersey_number", .str "15")]

/-- The store after the C1 concrete sync. -/
def dbC1 : DB := (sync_games clientC1 "NFL" reqDate db0).1

/-- The first game row written by the C1 concrete sync. -/
def c1g : GameRow := dbC1.games.head (by
  have hl : dbC1.games.length = 2 := rfl
  exact List.ne_nil_of_length_pos (by omega))

/-- The store after directly replacing period scores for game 1. -/
def c2res : DB := okOr db0 (syncPeriodScores 1 [periodDict 1 7 0] db0)

theorem foldlM_except_inv {α β : Type} (f : β → α → Except Err β) (P : β → Prop)
    (hf : ∀ b a b2, P b → f b a = .ok b2 → P b2) :
    ∀ (l : List α) (b b2 : β), P b → l.foldlM f b = .ok b2 → P b2 := by
  intro l
  induction l with
  | nil =>
    intro b b2 hb h
    simp only [List.foldlM_nil, pure, Except.pure] at h
    cases h
    exact hb
  | cons x xs ih =>
    intro b b2 hb h
    rw [List.foldlM_cons] at h
    cases hfx : f b x with
    | error e => rw [hfx] at h; simp [bind, Except.bind] at h
    | ok b1 =>
      rw [hfx] at h
      simp only [bind, Except.bind] at h
      exact ih b1 b2 (hf b x b1 hb hfx) h

theorem getOrCreateTeam_state (league : LeagueRow) (td : Json) (db : DB) (t : TeamRow) (db2 : DB)
    (h : getOrCreateTeam league td db = .ok (t, db2)) :
    db2.games = db.games ∧ db2.scores = db.scores ∧ db2.leagues = db.leagues ∧ db2.players = db.players := by
  unfold getOrCreateTeam at h
  simp only [bind, Except.bind] at h
  repeat' split at h
  all_goals (try simp_all)
  all_goals (obtain ⟨h1, h2⟩ := h; subst h2; simp)

theorem ebind_ok {α β : Type} (a : α) (f : α → Except Err β) :
    (Except.ok a >>= f) = f a := rfl

theorem ebind_error {α β : Type} (e : Err) (f : α → Except Err β) :
    ((Except.error e : Except Err α) >>= f) = .error e := rfl

theorem scoreCreate_state (gamePk : Nat) (acc : DB) (sd : Json) (db2 : DB)
    (h : scoreCreate gamePk acc sd = .ok db2) :
    db2.games = acc.games ∧ db2.leagues = acc.leagues ∧ db2.teams = acc.teams ∧ db2.players = acc.players := by
  unfold scoreCreate at h
  simp only [bind, Except.bind] at h
  repeat' split at h
  all_goals (try simp_all)
  all_goals (cases h; simp)

theorem syncPeriodScores_state (gamePk : Nat) (lst : List Json) (db db2 : DB)
    (h : syncPeriodScores gamePk lst db = .ok db2) :
    db2.games = db.games ∧ db2.leagues = db.leagues ∧ db2.teams = db.teams ∧ db2.players = db.players := by
  unfold syncPeriodScores at h
  refine foldlM_except_inv (scoreCreate gamePk)
    (fun d => d.games = db.games ∧ d.leagues = db.leagues ∧ d.teams = db.teams ∧ d.players = db.players)
    ?_ lst _ db2 (by simp) h
  intro b a b2 hb hstep
  have := scoreCreate_state gamePk b a b2 hstep
  simp_all

theorem maybeSyncScores_state (gamePk : Nat) (gd : Json) (db db2 : DB)
    (h : maybeSyncScores gamePk gd db = .ok db2) :
    db2.games = db.games ∧ db2.leagues = db.leagues ∧ db2.teams = db.teams ∧ db2.players = db.players := by
  unfold maybeSyncScores at h
  split at h
  · simp only [bind, Except.bind] at h
    split at h
    · exact absurd h (by simp)
    · exact syncPeriodScores_state _ _ _ _ h
  · cases h; simp

theorem syncOneGame_step (league : LeagueRow) (date : PyDate) (acc acc2 : DB × Nat × Nat) (gd : Json)
    (h : syncOneGame league date acc gd = .ok acc2) :
    ∀ g ∈ acc2.1.games, g ∈ acc.1.games ∨ g.game_date = midnightOf date := by
  obtain ⟨db0, created, updated⟩ := acc
  unfold syncOneGame at h
  simp only [bind, Except.bind] at h
  repeat' split at h
  all_goals (try simp_all)
  · rename_i x10 v9 h10 x9 p8 h9 x8 v7 h8 x7 p6 h7 x6 v5 h6 x5 v4 h5 x4 v3 h4 x3 v2 h3 x2 v1 h2 x1 gOld h1 x0 dbv h0
    subst h
    intro g hg
    simp only at hg
    have e1 := (getOrCreateTeam_state _ _ _ _ _ h9).1
    have e2 := (getOrCreateTeam_state _ _ _ _ _ h7).1
    have e3 := (maybeSyncScores_state _ _ _ _ h0).1
    simp only at e3
    rw [e3, e2, e1] at hg
    rcases List.mem_map.1 hg with ⟨x, hx, rfl⟩
    by_cases hpk : x.pk = gOld.pk
    · right; simp [hpk, gameRowOf]
    · left; simpa [hpk] using hx
  · rename_i x10 v9 h10 x9 p8 h9 x8 v7 h8 x7 p6 h7 x6 v5 h6 x5 v4 h5 x4 v3 h4 x3 v2 h3 x2 v1 h2 x1 x0 dbv hnone h0
    subst h
    intro g hg
    simp only at hg
    have e1 := (getOrCreateTeam_state _ _ _ _ _ h9).1
    have e2 := (getOrCreateTeam_state _ _ _ _ _ h7).1
    have e3 := (maybeSyncScores_state _ _ _ _ h0).1
    simp only at e3
    rw [e3] at hg
    rcases List.mem_append.1 hg with hmem | hmem
    · left; rw [e2, e1] at hmem; exact hmem
    · right
      rcases List.mem_singleton.1 hmem with rfl
      simp [gameRowOf]

theorem syncGamesBody_games (client : String → PyDate → Except Err (List Json))
    (league_abbr : String) (date : PyDate) (db db2 : DB) (c u : Nat)
    (h : syncGamesBody client league_abbr date db = .ok (db2, c, u)) :
    ∀ g ∈ db2.games, g ∈ db.games ∨ g.game_date = midnightOf date := by
  unfold syncGamesBody at h
  simp only [bind, Except.bind] at h
  split at h
  · simp at h
  rename_i league hleague
  split at h
  · simp at h
  rename_i games hgames
  have := foldlM_except_inv (syncOneGame league date)
    (fun acc => ∀ g ∈ acc.1.games, g ∈ db.games ∨ g.game_date = midnightOf date)
    ?_ games (db, 0, 0) (db2, c, u) ?_ h
  · exact this
  · intro b a b2 hb hstep g hg
    rcases syncOneGame_step league date b b2 a hstep g hg with hmem | hdate
    · exact hb g hmem
    · exact Or.inr hdate
  · intro g hg
    exact Or.inl hg

theorem maybeSyncScores_skip (gamePk : Nat) (gd : Json) (db : DB)
    (h : (gd.getN "period_scores").truthy = false) :
    maybeSyncScores gamePk gd db = .ok db := by
  unfold maybeSyncScores
  rw [h]
  simp

theorem map_if_pk_eq_self (l : List GameRow) (pk : Nat) (gNew : GameRow)
    (h : ∀ x ∈ l, x.pk ≠ pk) :
    l.map (fun x => if x.pk == pk then gNew else x) = l := by
  induction l with
  | nil => rfl
  | cons x xs ih =>
    have hx := h x (by simp)
    simp only [List.map_cons, List.cons.injEq]
    constructor
    · simp [hx]
    · exact ih (fun y hy => h y (by simp [hy]))

theorem filter_eq_nil_of_find?_none (l : List GameRow) (p : GameRow → Bool)
    (h : l.find? p = none) : l.filter p = [] := by
  refine List.filter_eq_nil_iff.2 ?_
  intro x hx
  simpa using List.find?_eq_none.1 h x hx

/-- Claim C5 (confirmed). Applying the same canonical game record through
`sync_games` twice yields (created, updated) = (1, 0) then (0, 1), and the
number of stored game rows with that external_id is exactly 1 after each
application, for any starting store that does not already contain the record
(with fresh primary keys). -/
theorem c5_theorem : ∀ (db : DB) (L : LeagueRow),
    db.leagues.find? (fun l => l.abbreviation == "NFL") = some L →
    db.teams.find? (fun t => t.external_id.beq (.str "KC") && t.league == L.pk) = none →
    db.teams.find? (fun t => t.external_id.beq (.str "BUF") && t.league == L.pk) = none →
    db.games.find? (fun g => g.external_id.beq (.str "401547403")) = none →
    (∀ g ∈ db.games, g.pk < db.nextPk) →
    (sync_games clientIdem "NFL" reqDate db).2 = .ok (1, 0) ∧
    (sync_games clientIdem "NFL" reqDate (sync_games clientIdem "NFL" reqDate db).1).2 = .ok (0, 1) ∧
    ((sync_games clientIdem "NFL" reqDate db).1.games.filter
      (fun g => g.external_id.beq (.str "401547403"))).length = 1 ∧
    ((sync_games clientIdem "NFL" reqDate (sync_games clientIdem "NFL" reqDate db).1).1.games.filter
      (fun g => g.external_id.beq (.str "401547403"))).length = 1 := by
  intro db L hL hKC hBUF hG hPk
  have hht : (mGame "401547403" schedStr).idx "home_team" = .ok kcTeam := rfl
  have haw : (mGame "401547403" schedStr).idx "away_team" = .ok bufTeam := rfl
  have hid : (mGame "401547403" schedStr).idx "id" = .ok (.str "401547403") := rfl
  have hst : (mGame "401547403" schedStr).idx "status" = .ok (.str "scheduled") := rfl
  have hhs : (mGame "401547403" schedStr).idx "home_score" = .ok (.num 0) := rfl
  have has2 : (mGame "401547403" schedStr).idx "away_score" = .ok (.num 0) := rfl
  have hsch : computeScheduledTime (mGame "401547403" schedStr) = .ok (some schedParsed) := rfl
  have hkid : kcTeam.idx "id" = .ok (.str "KC") := rfl
  have hkname : kcTeam.idx "name" = .ok (.str "Kansas City Chiefs") := rfl
  have hkabbr : kcTeam.idx "abbreviation" = .ok (.str "KC") := rfl
  have hbid : bufTeam.idx "id" = .ok (.str "BUF") := rfl
  have hbname : bufTeam.idx "name" = .ok (.str "Buffalo Bills") := rfl
  have hbabbr : bufTeam.idx "abbreviation" = .ok (.str "BUF") := rfl
  have hms : ∀ (pk : Nat) (d : DB), maybeSyncScores pk (mGame "401547403" schedStr) d = .ok d :=
    fun pk d => maybeSyncScores_skip pk _ d rfl
  have hb1 : Json.beq (Json.str "KC") (Json.str "BUF") = false := rfl
  have hb2 : Json.beq (Json.str "KC") (Json.str "KC") = true := rfl
  have hb3 : Json.beq (Json.str "BUF") (Json.str "KC") = false := rfl
  have hb4 : Json.beq (Json.str "BUF") (Json.str "BUF") = true := rfl
  have hb5 : Json.beq (Json.str "401547403") (Json.str "401547403") = true := rfl
  have hGfil : db.games.filter (fun g => g.external_id.beq (.str "401547403")) = [] :=
    filter_eq_nil_of_find?_none _ _ hG
  refine ⟨?_, ?_, ?_, ?_⟩
  all_goals simp only [sync_games, syncGamesBody, clientIdem, leagueGet, hL, bind, Except.bind,
      List.foldlM_cons, List.foldlM_nil, pure, Except.pure, syncOneGame,
      hht, haw, hid, hst, hhs, has2, hsch, getOrCreateTeam,
      hkid, hkname, hkabbr, hbid, hbname, hbabbr, hKC, hBUF, hG, hms,
      List.find?_append, Option.or, List.find?_cons, List.find?_nil,
      hb1, hb2, hb3, hb4, hb5, hGfil, gameRowOf,
      beq_self_eq_true, Bool.false_and, Bool.and_false, Bool.and_self, Bool.true_and, Bool.and_true,
    List.filter_append, List.filter_cons, List.filter_nil, List.map_append, List.map_cons, List.map_nil]
  · simp
  · rw [map_if_pk_eq_self db.games (db.nextPk + 1 + 1) _ (fun x hx => by have := hPk x hx; omega)]
    simp [hGfil, hb5]

theorem scoreFold_spec (gamePk : Nat) :
    ∀ (lst : List Json) (tr : List (Json × Json × Json)) (db db2 : DB),
    periodTriplesOf lst = .ok tr →
    lst.foldlM (scoreCreate gamePk) db = .ok db2 →
    ∃ rows : List ScoreRow,
      db2.scores = db.scores ++ rows ∧
      rows.map (fun s => (s.period, s.home_score, s.away_score)) = tr ∧
      (∀ r ∈ rows, r.game = gamePk) := by
  intro lst
  induction lst with
  | nil =>
    intro tr db db2 ht hf
    simp only [List.foldlM_nil, pure, Except.pure] at hf
    cases hf
    cases ht
    exact ⟨[], by simp⟩
  | cons sd rest ih =>
    intro tr db db2 ht hf
    unfold periodTriplesOf at ht
    simp only [bind, Except.bind] at ht
    rw [List.foldlM_cons] at hf
    unfold scoreCreate at hf
    simp only [bind, Except.bind] at hf
    cases hp : sd.idx "period" with
    | error e => rw [hp] at ht hf; simp at ht hf
    | ok p =>
      rw [hp] at ht hf
      cases hh : sd.idx "home_score" with
      | error e => rw [hh] at ht hf; simp at ht hf
      | ok hs =>
        rw [hh] at ht hf
        cases ha : sd.idx "away_score" with
        | error e => rw [ha] at ht hf; simp at ht hf
        | ok as2 =>
          rw [ha] at ht hf
          cases htr : periodTriplesOf rest with
          | error e => rw [htr] at ht; simp at ht
          | ok tail =>
            rw [htr] at ht
            simp only [Except.ok.injEq] at ht
            subst ht
            simp only at hf
            rcases ih tail _ db2 htr hf with ⟨rows, h1, h2, h3⟩
            refine ⟨{ pk := db.nextPk, game := gamePk, period := p, home_score := hs,
                      away_score := as2 } :: rows, ?_, ?_, ?_⟩
            · simpa using h1
            · simp [h2]
            · intro r hr
              rcases List.mem_cons.1 hr with rfl | hr
              · rfl
              · exact h3 r hr

theorem syncPeriodScores_spec (gamePk : Nat) (lst : List Json) (tr : List (Json × Json × Json))
    (db db2 : DB)
    (ht : periodTriplesOf lst = .ok tr)
    (h : syncPeriodScores gamePk lst db = .ok db2) :
    (db2.scores.filter (fun s => s.game == gamePk)).map
      (fun s => (s.period, s.home_score, s.away_score)) = tr ∧
    db2.scores.filter (fun s => s.game != gamePk) = db.scores.filter (fun s => s.game != gamePk) := by
  unfold syncPeriodScores at h
  rcases scoreFold_spec gamePk lst tr _ db2 ht h with ⟨rows, h1, h2, h3⟩
  simp only at h1
  constructor
  · rw [h1, List.filter_append]
    have hfl : (db.scores.filter (fun s => s.game != gamePk)).filter (fun s => s.game == gamePk) = [] := by
      refine List.filter_eq_nil_iff.2 ?_
      intro x hx
      have hx2 := (List.mem_filter.1 hx).2
      simp at hx2 ⊢
      exact hx2
    have hfr : rows.filter (fun s => s.game == gamePk) = rows := by
      refine List.filter_eq_self.2 ?_
      intro r hr
      simp [h3 r hr]
    rw [hfl, hfr, List.nil_append, h2]
  · rw [h1, List.filter_append]
    have hfl : (db.scores.filter (fun s => s.game != gamePk)).filter (fun s => s.game != gamePk) =
        db.scores.filter (fun s => s.game != gamePk) := by
      refine List.filter_eq_self.2 ?_
      intro x hx
      exact (List.mem_filter.1 hx).2
    have hfr : rows.filter (fun s => s.game != gamePk) = [] := by
      refine List.filter_eq_nil_iff.2 ?_
      intro r hr
      simp [h3 r hr]
    rw [hfl, hfr, List.append_nil]

theorem parsePeriodScoresAux_ints :
    ∀ (l : List (Int × Int)) (p : Nat),
    parsePeriodScoresAux p (l.map (Prod.map mkLinescore mkLinescore)) = .ok (specPeriodScores p l) := by
  intro l
  induction l with
  | nil => intro p; rfl
  | cons q rest ih =>
    intro p
    obtain ⟨h, a⟩ := q
    simp only [List.map_cons, Prod.map, parsePeriodScoresAux, bind, Except.bind]
    have e1 : pyInt ((mkLinescore h).getD "value" (.num 0)) = .ok h := rfl
    have e2 : pyInt ((mkLinescore a).getD "value" (.num 0)) = .ok a := rfl
    rw [e1, e2, ih (p + 1)]
    rfl

theorem specPeriodScores_length : ∀ (l : List (Int × Int)) (p : Nat),
    (specPeriodScores p l).length = l.length := by
  intro l
  induction l with
  | nil => intro p; rfl
  | cons q rest ih => intro p; obtain ⟨h, a⟩ := q; simp [specPeriodScores, ih]

theorem specPeriodScores_periods : ∀ (l : List (Int × Int)) (p : Nat),
    (specPeriodScores p l).map (fun r => r.period) = List.range' p l.length := by
  intro l
  induction l with
  | nil => intro p; rfl
  | cons q rest ih =>
    intro p
    obtain ⟨h, a⟩ := q
    simp [specPeriodScores, ih, List.range'_succ]

theorem lookup_getD_mem (m : List (String × String)) (d s : String) :
    (m.lookup s).getD d = d ∨ (m.lookup s).getD d ∈ m.map Prod.snd := by
  induction m with
  | nil => left; rfl
  | cons kv rest ih =>
    obtain ⟨k, v⟩ := kv
    simp only [List.lookup]
    split
    · right; simp
    · rcases ih with h | h
      · left; exact h
      · right; simp only [List.map_cons, List.mem_cons]; right; exact h

theorem syncLeaguesLoop_keys (client : String → PyDate → Except Err (List Json)) (today : PyDate) :
    ∀ (ls : List String) (db : DB),
    ((syncLeaguesLoop client today ls db).2).map Prod.fst = ls := by
  intro ls
  induction ls with
  | nil => intro db; rfl
  | cons l rest ih =>
    intro db
    unfold syncLeaguesLoop
    split
    · rename_i c u db2 heq
      simp [ih]
    · simp [ih]

theorem syncDatesLoop_keys (client : String → PyDate → Except Err (List Json)) (league_abbr : String) :
    ∀ (ds : List PyDate) (db : DB),
    ((syncDatesLoop client league_abbr ds db).2).map Prod.fst = ds.map isoDate := by
  intro ds
  induction ds with
  | nil => intro db; rfl
  | cons d rest ih =>
    intro ds
    unfold syncDatesLoop
    split
    · simp [ih]
    · simp [ih]

theorem dailyLoop_spec (client : String → PyDate → Except Err (List Json)) :
    ∀ (units : List (String × PyDate)) (db : DB) (synced : Nat) (errors : List String),
    ((dailyLoop client units db synced errors).2).synced + 2 * ((dailyLoop client units db synced errors).2).errors.length
      = synced + 2 * errors.length + 2 * units.length ∧
    (∀ m ∈ ((dailyLoop client units db synced errors).2).errors,
      m ∈ errors ∨ ∃ l d e, (l, d) ∈ units ∧ m = dailyMsg l d e) := by
  intro units
  induction units with
  | nil =>
    intro db synced errors
    constructor
    · simp [dailyLoop]
    · intro m hm
      exact Or.inl hm
  | cons u rest ih =>
    intro db synced errors
    obtain ⟨l, d⟩ := u
    unfold dailyLoop
    split
    · rename_i db2 cu heq
      constructor
      · have := (ih db2 (synced + 2) errors).1
        simp only [List.length_cons]
        omega
      · intro m hm
        rcases (ih db2 (synced + 2) errors).2 m hm with h | ⟨l2, d2, e2, hmem, hmsg⟩
        · exact Or.inl h
        · exact Or.inr ⟨l2, d2, e2, by simp [hmem], hmsg⟩
    · rename_i db2 e heq
      constructor
      · have := (ih db2 synced (errors ++ [dailyMsg l d e])).1
        simp at this
        simp only [List.length_cons]
        omega
      · intro m hm
        rcases (ih db2 synced (errors ++ [dailyMsg l d e])).2 m hm with h | ⟨l2, d2, e2, hmem, hmsg⟩
        · rcases List.mem_append.1 h with h | h
          · exact Or.inl h
          · right
            refine ⟨l, d, e, by simp, ?_⟩
            simpa using h
        · exact Or.inr ⟨l2, d2, e2, by simp [hmem], hmsg⟩

theorem bind_runtime {α β : Type} (x : Except Err α) (f : α → Except Err β)
    (hx : ∀ e, x = .error e → e.isRuntime) (hf : ∀ a e, f a = .error e → e.isRuntime) :
    ∀ e, (x >>= f) = .error e → e.isRuntime := by
  intro e h
  cases x with
  | error e2 =>
    simp only [ebind_error] at h
    cases h
    exact hx _ rfl
  | ok a =>
    simp only [ebind_ok] at h
    exact hf a e h

theorem pyInt_runtime (j : Json) : ∀ e, pyInt j = .error e → e.isRuntime := by
  intro e h
  unfold pyInt at h
  repeat' split at h
  all_goals (try cases h)
  all_goals rfl

theorem asArr_runtime (j : Json) : ∀ e, j.asArr = .error e → e.isRuntime := by
  intro e h
  unfold Json.asArr at h
  split at h
  · cases h
  · cases h; rfl

theorem listIdx_runtime (j : Json) (i : Nat) : ∀ e, j.listIdx i = .error e → e.isRuntime := by
  intro e h
  unfold Json.listIdx at h
  repeat' split at h
  all_goals (try cases h)
  all_goals rfl

theorem getStat_runtime (status : String) (competitor : Json) (statName : String) :
    ∀ e, getStat status competitor statName = .error e → e.isRuntime := by
  unfold getStat
  split
  · intro e h; cases h
  · refine bind_runtime _ _ (asArr_runtime _) ?_
    intro a e h
    cases h

theorem broadcastsFold_runtime :
    ∀ (bs : List Json) (net : Json) (info : List Json) (e : Err),
    broadcastsFold bs net info = .error e → e.isRuntime := by
  intro bs
  induction bs with
  | nil => intro net info e h; cases h
  | cons b rest ih =>
    intro net info e h
    unfold broadcastsFold at h
    dsimp only at h
    repeat' split at h
    all_goals first
      | exact ih _ _ _ h
      | exact bind_runtime _ _ (fun e2 h2 => by simp [pure, Except.pure] at h2)
          (fun net2 e2 h2 => ih _ _ _ h2) e h
      | exact bind_runtime _ _ (listIdx_runtime _ _) (fun net2 e2 h2 => ih _ _ _ h2) e h

theorem probableStep_runtime (competitor : Json) (acc : PitcherAcc) (probable : Json) :
    ∀ e, probableStep competitor acc probable = .error e → e.isRuntime := by
  unfold probableStep
  split
  · refine bind_runtime _ _ (asArr_runtime _) ?_
    intro a e h
    split at h <;> cases h
  · intro e h; cases h

theorem foldlM_runtime {α β : Type} (f : β → α → Except Err β)
    (hf : ∀ b a e, f b a = .error e → e.isRuntime) :
    ∀ (l : List α) (b : β) (e : Err), l.foldlM f b = .error e → e.isRuntime := by
  intro l
  induction l with
  | nil => intro b e h; simp [List.foldlM_nil, pure, Except.pure] at h
  | cons x xs ih =>
    intro b e h
    rw [List.foldlM_cons] at h
    exact bind_runtime _ _ (hf b x) (fun b2 e2 h2 => ih b2 e2 h2) e h

theorem probablesCompetitor_runtime (acc : PitcherAcc) (competitor : Json) :
    ∀ e, probablesCompetitor acc competitor = .error e → e.isRuntime := by
  unfold probablesCompetitor
  refine bind_runtime _ _ (asArr_runtime _) ?_
  intro a e h
  exact foldlM_runtime _ (fun b a2 e2 h2 => probableStep_runtime _ _ _ _ h2) _ _ _ h

theorem probablesAll_runtime (competitors : List Json) :
    ∀ e, probablesAll competitors = .error e → e.isRuntime := by
  unfold probablesAll
  exact foldlM_runtime _ (fun b a e h => probablesCompetitor_runtime _ _ _ h) _ _

theorem parseScoreboardEvent_runtime (ev : Json) :
    ∀ e, parseScoreboardEvent ev = .error e → e.isRuntime := by
  unfold parseScoreboardEvent
  refine bind_runtime _ _ (listIdx_runtime _ _) ?_
  intro competition
  refine bind_runtime _ _ (asArr_runtime _) ?_
  intro competitors
  refine bind_runtime _ _ (asArr_runtime _) ?_
  intro hls
  refine bind_runtime _ _ (asArr_runtime _) ?_
  intro als
  refine bind_runtime _ _ (getStat_runtime _ _ _) ?_
  intro hh
  refine bind_runtime _ _ (getStat_runtime _ _ _) ?_
  intro he
  refine bind_runtime _ _ (getStat_runtime _ _ _) ?_
  intro ah
  refine bind_runtime _ _ (getStat_runtime _ _ _) ?_
  intro ae
  refine bind_runtime _ _ (asArr_runtime _) ?_
  intro bs
  refine bind_runtime _ _ (broadcastsFold_runtime _ _ _) ?_
  intro p
  obtain ⟨net, info⟩ := p
  refine bind_runtime _ _ (probablesAll_runtime _) ?_
  intro pitchers
  refine bind_runtime _ _ (pyInt_runtime _) ?_
  intro hsc
  refine bind_runtime _ _ (pyInt_runtime _) ?_
  intro asc
  intro e h
  cases h

theorem mapExcept_runtime (f : Json → Except Err Json)
    (hf : ∀ x e, f x = .error e → e.isRuntime) :
    ∀ (l : List Json) (e : Err), mapExcept f l = .error e → e.isRuntime := by
  intro l
  induction l with
  | nil => intro e h; cases h
  | cons x xs ih =>
    intro e h
    unfold mapExcept at h
    exact bind_runtime _ _ (hf x)
      (fun y => bind_runtime _ _ ih (fun ys e2 h2 => by cases h2)) e h

theorem c3_pipeline_status (s : String) :
    (parseScoreboardEvent (mkStatusEvent s)).map (fun j => j.getN "status") =
      .ok (.str ((eventStatusTable.lookup s).getD "scheduled")) := by
  simp [parseScoreboardEvent, mkStatusEvent, Json.getD, Json.getN, Json.listIdx, Json.asArr,
    List.lookup, getStat, getStatFromList, broadcastsFold, probablesAll, probablesCompetitor,
    pyInt, situationOf, Json.truthy, bind, Except.bind, Except.map, ite_self, List.foldlM,
    pure, Except.pure, eventStatusTable]

/-- Claim C6 (confirmed). For a team with a (truthy) external_id,
`sync_team_roster` performs a full upsert keyed by the athlete's external_id:
a new player is created with every payload field, and an existing player is
overwritten with every payload field including the team reference
(`playerFields` sets `team := team.pk`), with (created, updated) counts
returned. -/
theorem c6_theorem : ∀ (team : TeamRow) (db : DB) (a aid : Json),
    team.external_id.truthy = true →
    a.idx "external_id" = .ok aid →
    (db.players.find? (fun p => p.external_id.beq aid) = none →
      sync_team_roster (.ok (Json.obj [("athletes", Json.arr [a])])) team db =
        ({ db with players := db.players ++ [playerFields team db.nextPk aid a],
                   nextPk := db.nextPk + 1 }, 1, 0)) ∧
    (∀ p0, db.players.find? (fun p => p.external_id.beq aid) = some p0 →
      sync_team_roster (.ok (Json.obj [("athletes", Json.arr [a])])) team db =
        ({ db with players :=
            db.players.map (fun x => if x.pk == p0.pk then playerFields team p0.pk p0.external_id a else x) },
         0, 1)) := by
  intro team db a aid h1 h2
  have hath : (Json.obj [("athletes", Json.arr [a])]).getD "athletes" (.arr []) = .arr [a] := by
    simp [Json.getD, List.lookup]
  constructor
  · intro hfind
    unfold sync_team_roster
    simp only [h1, Bool.not_true, Bool.false_eq_true, if_false, bind, Except.bind, hath,
      Json.asArr, List.foldlM_cons, List.foldlM_nil, pure, Except.pure, rosterStep, h2, hfind]
  · intro p0 hfind
    unfold sync_team_roster
    simp only [h1, Bool.not_true, Bool.false_eq_true, if_false, bind, Except.bind, hath,
      Json.asArr, List.foldlM_cons, List.foldlM_nil, pure, Except.pure, rosterStep, h2, hfind]

/-- Claim C1 (corrected). The game upsert of `sync_games` sets `game_date` to
the sync-requested date at midnight for every row it writes, regardless of the
payload, while `scheduled_time` independently stores the parsed scheduled time
when it parses and null when it is absent or malformed, without raising.
Conjunct 1: every game row present after a successful `sync_games` body run was
either already stored or has `game_date = midnightOf date`.  Conjunct 2: on the
concrete two-game payload (one parseable scheduled_time, one malformed), the
sync succeeds with (2, 0) and stores scheduled_time `some`/`none` respectively,
with `game_date` the requested midnight both times. -/
theorem c1_theorem :
    (∀ client league_abbr date db db2 c u,
      syncGamesBody client league_abbr date db = .ok (db2, c, u) →
      ∀ g ∈ db2.games, g ∈ db.games ∨ g.game_date = midnightOf date) ∧
    ((sync_games clientC1 "NFL" reqDate db0).2 = .ok (2, 0) ∧
     (sync_games clientC1 "NFL" reqDate db0).1.games.map (fun g => (g.scheduled_time, g.game_date)) =
       [(some schedParsed, midnightOf reqDate), (none, midnightOf reqDate)]) :=
  ⟨fun client league_abbr date db db2 c u h =>
    syncGamesBody_games client league_abbr date db db2 c u h, rfl, rfl⟩

/-- Claim C1, counterexample to the claim as stated: the first stored game has
a present and parseable `scheduled_time` (stored as `some schedParsed`), yet its
`game_date` is the sync-requested date at midnight, which differs from the
parsed scheduled time. -/
theorem c1_counterexample :
    (sync_games clientC1 "NFL" reqDate db0).1.games.map (fun g => (g.scheduled_time, g.game_date)) =
      [(some schedParsed, midnightOf reqDate), (none, midnightOf reqDate)] ∧
    midnightOf reqDate ≠ schedParsed :=
  ⟨rfl, by decide⟩

/-- Witness for C1: the theorem applied at the concrete client and store. -/
theorem c1_witness :
    syncGamesBody clientC1 "NFL" reqDate db0 = .ok (dbC1, 2, 0) ∧
    (c1g ∈ db0.games ∨ c1g.game_date = midnightOf reqDate) :=
  ⟨rfl, c1_theorem.1 clientC1 "NFL" reqDate db0 dbC1 2 0 rfl c1g (List.head_mem _)⟩

/-- Claim C2 (corrected). `_sync_period_scores` fully replaces a game's
period-score rows (conjunct 1), but `sync_games` only invokes it when the
payload's period-score list is truthy, i.e. non-empty (conjunct 2: an empty or
absent list leaves existing rows untouched).  Conjunct 3: the spec's concrete
scenario — periods [1,2] then [1] — leaves exactly one row, period 1. -/
theorem c2_theorem :
    (∀ (gamePk : Nat) (lst : List Json) (tr : List (Json × Json × Json)) (db db2 : DB),
      periodTriplesOf lst = .ok tr →
      syncPeriodScores gamePk lst db = .ok db2 →
      (db2.scores.filter (fun s => s.game == gamePk)).map
        (fun s => (s.period, s.home_score, s.away_score)) = tr ∧
      db2.scores.filter (fun s => s.game != gamePk) = db.scores.filter (fun s => s.game != gamePk)) ∧
    (∀ (gamePk : Nat) (gd : Json) (db : DB),
      (gd.getN "period_scores").truthy = false → maybeSyncScores gamePk gd db = .ok db) ∧
    ((sync_games clientP1 "NFL" reqDate ((sync_games clientP12 "NFL" reqDate db0).1)).1.scores.map
      (fun s => (s.game, s.period, s.home_score, s.away_score)) = [(4, .num 1, .num 7, .num 0)]) :=
  ⟨fun gamePk lst tr db db2 ht h => syncPeriodScores_spec gamePk lst tr db db2 ht h,
   fun gamePk gd db h => maybeSyncScores_skip gamePk gd db h, rfl⟩

/-- Claim C2, counterexample to the claim as stated: re-syncing a game whose
new payload carries an EMPTY period-score list succeeds as an update but leaves
both stale period rows (periods 1 and 2) in the store, so the stored set does
not equal the payload's (empty) set. -/
theorem c2_counterexample :
    (sync_games clientPnone "NFL" reqDate ((sync_games clientP12 "NFL" reqDate db0).1)).2 = .ok (0, 1) ∧
    (sampleGame schedStr (.arr [])).getN "period_scores" = .arr [] ∧
    (sync_games clientPnone "NFL" reqDate ((sync_games clientP12 "NFL" reqDate db0).1)).1.scores.map
      (fun s => s.period) = [.num 1, .num 2] :=
  ⟨rfl, rfl, rfl⟩

/-- Witness for C2: conjunct 1 applied at a concrete period-score list. -/
theorem c2_witness :
    (c2res.scores.filter (fun s => s.game == 1)).map
      (fun s => (s.period, s.home_score, s.away_score)) = [(.num 1, .num 7, .num 0)] ∧
    c2res.scores.filter (fun s => s.game != 1) = db0.scores.filter (fun s => s.game != 1) :=
  c2_theorem.1 1 [periodDict 1 7 0] [(.num 1, .num 7, .num 0)] db0 c2res rfl rfl

/-- Claim C3 (corrected). `normalize_status` is total with codomain the five
canonical statuses and maps `STATUS_IN_PROGRESS` to `live`; but the scoreboard
pipeline path `_parse_scoreboard_event` uses its own inline table, whose
codomain is {scheduled, in_progress, final, postponed, cancelled, suspended}
with unknown strings defaulting to `scheduled` (never raising). -/
theorem c3_theorem :
    (∀ s, normalize_status s ∈ ["scheduled", "live", "final", "postponed", "cancelled"]) ∧
    normalize_status "STATUS_IN_PROGRESS" = "live" ∧
    (∀ s, (parseScoreboardEvent (mkStatusEvent s)).map (fun j => j.getN "status") =
      .ok (.str ((eventStatusTable.lookup s).getD "scheduled"))) ∧
    (∀ s, (eventStatusTable.lookup s).getD "scheduled" ∈
      ["scheduled", "in_progress", "final", "postponed", "cancelled", "suspended"]) := by
  refine ⟨?_, rfl, ?_, ?_⟩
  · intro s
    unfold normalize_status
    rcases lookup_getD_mem STATUS_MAPPINGS "scheduled" s with h | h
    · rw [h]; simp
    · rw [show STATUS_MAPPINGS.map Prod.snd =
          ["scheduled", "live", "live", "final", "final", "postponed", "cancelled", "cancelled"] from rfl] at h
      revert h
      generalize (STATUS_MAPPINGS.lookup s).getD "scheduled" = v
      intro h
      fin_cases h <;> simp
  · intro s
    simp [parseScoreboardEvent, mkStatusEvent, Json.getD, Json.getN, Json.listIdx, Json.asArr,
      List.lookup, getStat, getStatFromList, broadcastsFold, probablesAll, probablesCompetitor,
      pyInt, situationOf, Json.truthy, bind, Except.bind, Except.map, ite_self, List.foldlM,
      pure, Except.pure, eventStatusTable]
  · intro s
    rcases lookup_getD_mem eventStatusTable "scheduled" s with h | h
    · rw [h]; simp
    · rw [show eventStatusTable.map Prod.snd =
          ["scheduled", "in_progress", "final", "postponed", "cancelled", "suspended"] from rfl] at h
      revert h
      generalize (eventStatusTable.lookup s).getD "scheduled" = v
      intro h
      fin_cases h <;> simp

/-- Claim C3, counterexample to the claim as stated: on the scoreboard
pipeline path, `STATUS_IN_PROGRESS` normalizes to `in_progress`, which is not
`live` and not among the five claimed canonical statuses. -/
theorem c3_counterexample :
    (parseScoreboardEvent (mkStatusEvent "STATUS_IN_PROGRESS")).map (fun j => j.getN "status") =
      .ok (.str "in_progress") ∧
    "in_progress" ∉ ["scheduled", "live", "final", "postponed", "cancelled"] :=
  ⟨rfl, by decide⟩

theorem mem_units_decompose (l : String) (d today : PyDate) :
    (l, d) ∈ ((["NFL", "NBA", "MLB", "NHL"].map (fun x => [(x, today), (x, addDays today 1)])).flatten) →
    l ∈ ["NFL", "NBA", "MLB", "NHL"] ∧ (d = today ∨ d = addDays today 1) := by
  intro h
  rw [show ((["NFL", "NBA", "MLB", "NHL"].map (fun x => [(x, today), (x, addDays today 1)])).flatten) =
    [("NFL", today), ("NFL", addDays today 1), ("NBA", today), ("NBA", addDays today 1),
     ("MLB", today), ("MLB", addDays today 1), ("NHL", today), ("NHL", addDays today 1)] from rfl] at h
  simp only [List.mem_cons, List.not_mem_nil, or_false, Prod.mk.injEq] at h
  rcases h with ⟨h1, h2⟩ | ⟨h1, h2⟩ | ⟨h1, h2⟩ | ⟨h1, h2⟩ | ⟨h1, h2⟩ | ⟨h1, h2⟩ | ⟨h1, h2⟩ | ⟨h1, h2⟩ <;>
    rw [h1, h2] <;> simp

/-- Claim C4 (corrected). All three multi-unit operations attempt every unit
regardless of failures: `sync_live_games` returns one (league, counts) entry
per league and `sync_date_range` one entry per date of the range; the
`sync_daily_schedule` task records exactly one error message per failed
(league, date) unit, naming the unit, and adds 2 (the length of the
`(created, updated)` tuple) to its aggregate `synced` counter per successful
unit — so `synced + 2 * errors = 16` over its 8 units. -/
theorem c4_theorem :
    (∀ client today db,
      ((sync_live_games client today none db).2).map Prod.fst = ["NFL", "NBA", "MLB", "NHL"]) ∧
    (∀ client league_abbr start_date end_date db,
      ((sync_date_range client league_abbr start_date end_date db).2).map Prod.fst =
        (dateRange start_date end_date).map isoDate) ∧
    (∀ client today db,
      ((sync_daily_schedule client today db).2).synced +
        2 * ((sync_daily_schedule client today db).2).errors.length = 16 ∧
      (∀ m ∈ ((sync_daily_schedule client today db).2).errors,
        ∃ l d e, l ∈ ["NFL", "NBA", "MLB", "NHL"] ∧ (d = today ∨ d = addDays today 1) ∧
          m = dailyMsg l d e)) := by
  refine ⟨?_, ?_, ?_⟩
  · intro client today db
    exact syncLeaguesLoop_keys client today ["NFL", "NBA", "MLB", "NHL"] db
  · intro client league_abbr start_date end_date db
    exact syncDatesLoop_keys client league_abbr (dateRange start_date end_date) db
  · intro client today db
    have hspec := dailyLoop_spec client
      ((["NFL", "NBA", "MLB", "NHL"].map (fun l => [(l, today), (l, addDays today 1)])).flatten)
      db 0 []
    constructor
    · have h1 := hspec.1
      have hu : ((["NFL", "NBA", "MLB", "NHL"].map
          (fun l => [(l, today), (l, addDays today 1)])).flatten).length = 8 := rfl
      rw [hu] at h1
      simpa using h1
    · intro m hm
      rcases hspec.2 m hm with h | ⟨l, d, e, hmem, hmsg⟩
      · simp at h
      · obtain ⟨hl, hd⟩ := mem_units_decompose l d today hmem
        exact ⟨l, d, e, hl, hd, hmsg⟩

/-- Claim C4, counterexample to the claim as stated: a live sync in which the
NBA unit raises returns a result identical to one in which the NBA unit
succeeds with no games — the failed unit is recorded as (0, 0) with no error
entry of any kind, not as a structured error. -/
theorem c4_counterexample :
    sync_live_games clientFailNBA reqDate none db4 = sync_live_games clientEmptyAll reqDate none db4 ∧
    (sync_live_games clientFailNBA reqDate none db4).2 =
      [("NFL", 0, 0), ("NBA", 0, 0), ("MLB", 0, 0), ("NHL", 0, 0)] :=
  ⟨rfl, rfl⟩

/-- Witness for C4: the daily-schedule error characterization applied to the
first error message of a concrete failing run. -/
theorem c4_witness :
    ∃ l d e, l ∈ ["NFL", "NBA", "MLB", "NHL"] ∧ (d = reqDate ∨ d = addDays reqDate 1) ∧
      dailyMsg "NBA" reqDate Err.typeError = dailyMsg l d e := by
  have hmem : dailyMsg "NBA" reqDate Err.typeError ∈
      (sync_daily_schedule clientFailNBA reqDate db4).2.errors := by
    rw [show (sync_daily_schedule clientFailNBA reqDate db4).2.errors =
      [dailyMsg "NBA" reqDate Err.typeError, dailyMsg "NBA" (addDays reqDate 1) Err.typeError] from rfl]
    exact List.mem_cons_self _ _
  exact (c4_theorem.2.2 clientFailNBA reqDate db4).2 _ hmem

/-- Witness for C5: the theorem applied at the empty concrete store. -/
theorem c5_witness :
    (sync_games clientIdem "NFL" reqDate db0).2 = .ok (1, 0) ∧
    (sync_games clientIdem "NFL" reqDate (sync_games clientIdem "NFL" reqDate db0).1).2 = .ok (0, 1) ∧
    ((sync_games clientIdem "NFL" reqDate db0).1.games.filter
      (fun g => g.external_id.beq (.str "401547403"))).length = 1 ∧
    ((sync_games clientIdem "NFL" reqDate (sync_games clientIdem "NFL" reqDate db0).1).1.games.filter
      (fun g => g.external_id.beq (.str "401547403"))).length = 1 :=
  c5_theorem db0 nflLeague rfl rfl rfl rfl (by intro g hg; simp [db0] at hg)

/-- Witness for C6: the create branch applied at a concrete store. -/
theorem c6_witness :
    teamKC.external_id.truthy = true ∧
    sync_team_roster (.ok (Json.obj [("athletes", Json.arr [athleteA])])) teamKC db0 =
      ({ db0 with players := db0.players ++ [playerFields teamKC db0.nextPk (.str "p1") athleteA],
                  nextPk := db0.nextPk + 1 }, 1, 0) :=
  ⟨rfl, (c6_theorem teamKC db0 athleteA (.str "p1") rfl rfl).1 rfl⟩

/-- Claim C7 (confirmed). For linescore arrays of lengths N and M,
`parse_scoreboard`'s period-score extraction yields exactly min N M records
whose period indices are 1..min N M (zip-shortest: positions present on only
one side are dropped). -/
theorem c7_theorem : ∀ (h a : List Int),
    parsePeriodScores (h.map mkLinescore) (a.map mkLinescore) = .ok (specPeriodScores 1 (h.zip a)) ∧
    (specPeriodScores 1 (h.zip a)).length = min h.length a.length ∧
    (specPeriodScores 1 (h.zip a)).map (fun r => r.period) = List.range' 1 (min h.length a.length) := by
  intro h a
  refine ⟨?_, ?_, ?_⟩
  · unfold parsePeriodScores
    rw [List.zip_map]
    exact parsePeriodScoresAux_ints (h.zip a) 1
  · rw [specPeriodScores_length, List.length_zip]
  · rw [specPeriodScores_periods, List.length_zip]

/-- Claim C8 (corrected). Score fields are coerced with Python `int`: integer
payloads pass through, numeric strings are parsed, and an absent key defaults
to 0; a ValueError from an unparseable core field in `parse_scoreboard` skips
only that record and the batch continues.  (But null or non-numeric score
values raise — see the counterexample.) -/
theorem c8_theorem :
    (parseScoreboardEvent (mkScoreEvent (.str "24") (.str "21"))).map
        (fun j => (j.getN "home_score", j.getN "away_score")) = .ok (.num 24, .num 21) ∧
    (parseScoreboardEvent mkNoScoreEvent).map
        (fun j => (j.getN "home_score", j.getN "away_score")) = .ok (.num 0, .num 0) ∧
    (parse_scoreboard (.obj [("events", .arr [badDateEvent, mkParseEvent "g2" [] []])])).map
        (fun gs => gs.map (fun g => g.external_id)) = .ok [.str "g2"] ∧
    (∀ n : Int, pyInt (.num n) = .ok n) :=
  ⟨rfl, rfl, rfl, fun _ => rfl⟩

/-- Claim C8, counterexample to the claim as stated: a null score raises an
uncaught TypeError in `_parse_scoreboard_event`, and a null period-score value
aborts the whole `parse_scoreboard` batch (TypeError is not among the caught
exception classes), dropping the well-formed following event too. -/
theorem c8_counterexample :
    parseScoreboardEvent (mkScoreEvent Json.null (.num 2)) = .error .typeError ∧
    parse_scoreboard (.obj [("events", .arr
      [mkParseEvent "g3" [.obj [("value", Json.null)]] [mkLinescore 1],
       mkParseEvent "g4" [] []])]) = .error .typeError :=
  ⟨rfl, rfl⟩

/-- Claim C9 (corrected). Each typed fetch validates the league before any
request — an unknown league yields the unsupported-league error with zero
requests issued — but the validation differs: `get_scoreboard` uppercases its
argument first (and, for a known league, issues exactly one request and can
never produce the unsupported-league error), while `get_teams` and
`get_team_schedule` match the string exactly. -/
theorem c9_theorem :
    (∀ env league date limit, SPORT_MAPPINGS.lookup (pyToUpper league) = none →
      get_scoreboard env league date limit = ([], .error (.unsupportedLeague league))) ∧
    (∀ env league date limit m, SPORT_MAPPINGS.lookup (pyToUpper league) = some m →
      (get_scoreboard env league date limit).1.length = 1 ∧
      ∀ s, (get_scoreboard env league date limit).2 ≠ .error (.unsupportedLeague s)) ∧
    (∀ env league limit, SPORT_MAPPINGS.lookup league = none →
      get_teams env league limit = ([], .error (.unsupportedLeague league))) ∧
    (∀ env league limit m, SPORT_MAPPINGS.lookup league = some m →
      ∃ req, get_teams env league limit = ([req], .ok (env req))) ∧
    (∀ env league team_id season, SPORT_MAPPINGS.lookup league = none →
      get_team_schedule env league team_id season = ([], .error (.unsupportedLeague league))) ∧
    (∀ env league team_id season m, SPORT_MAPPINGS.lookup league = some m →
      ∃ req, get_team_schedule env league team_id season = ([req], .ok (env req))) := by
  refine ⟨?_, ?_, ?_, ?_, ?_, ?_⟩
  · intro env league date limit h
    unfold get_scoreboard
    rw [h]
  · intro env league date limit m h
    unfold get_scoreboard
    rw [h]
    constructor
    · rfl
    · intro s hcontra
      have := bind_runtime _ _ (asArr_runtime _)
        (fun l e2 h2 => mapExcept_runtime parseScoreboardEvent
          (fun x e3 h3 => parseScoreboardEvent_runtime x e3 h3) l e2 h2) _ hcontra
      simp [Err.isRuntime] at this
  · intro env league limit h
    unfold get_teams
    rw [h]
  · intro env league limit m h
    unfold get_teams
    rw [h]
    exact ⟨_, rfl⟩
  · intro env league team_id season h
    unfold get_team_schedule
    rw [h]
  · intro env league team_id season m h
    unfold get_team_schedule
    rw [h]
    exact ⟨_, rfl⟩

/-- Claim C9, counterexample to the claim as stated: for the single input
string `nfl`, `get_scoreboard` succeeds (issuing one request) while
`get_teams` and `get_team_schedule` raise the unsupported-league error with no
request — so no one set of supported codes makes the claim's dichotomy hold
across the three operations. -/
theorem c9_counterexample :
    (get_scoreboard dummyEnv "nfl" none 100).2 = .ok [] ∧
    (get_scoreboard dummyEnv "nfl" none 100).1.length = 1 ∧
    get_teams dummyEnv "nfl" 100 = ([], .error (.unsupportedLeague "nfl")) ∧
    get_team_schedule dummyEnv "nfl" "12" none = ([], .error (.unsupportedLeague "nfl")) :=
  ⟨rfl, rfl, rfl, rfl⟩

/-- Witness for C9: the raising branches applied at a concrete unknown
league. -/
theorem c9_witness :
    get_scoreboard dummyEnv "XXX" none 100 = ([], .error (.unsupportedLeague "XXX")) ∧
    get_teams dummyEnv "XXX" 100 = ([], .error (.unsupportedLeague "XXX")) :=
  ⟨c9_theorem.1 dummyEnv "XXX" none 100 rfl, c9_theorem.2.2.1 dummyEnv "XXX" 100 rfl⟩

/-- Claim C10 (confirmed). `sync_games` is atomic per (league, date) unit:
`@transaction.atomic` re-raises the body's exception and rolls the store back,
so when `sync_games` reports an error the store visible to the caller is
exactly the initial one — no Game, Team, or Score write from the invocation
persists. -/
theorem c10_theorem : ∀ client league_abbr date db e,
    (sync_games client league_abbr date db).2 = .error e →
    (sync_games client league_abbr date db).1 = db := by
  intro client league_abbr date db e h
  unfold sync_games at h ⊢
  cases hb : syncGamesBody client league_abbr date db with
  | ok v =>
    obtain ⟨db2, c, u⟩ := v
    rw [hb] at h
    simp at h
  | error e2 =>
    rfl

/-- Witness for C10: a payload whose second game dict is malformed — the body
fails after fully processing the first game, and the store is unchanged. -/
theorem c10_witness :
    (sync_games clientC10 "NFL" reqDate db0).2 = .error (.keyError "home_team") ∧
    (sync_games clientC10 "NFL" reqDate db0).1 = db0 :=
  ⟨rfl, c10_theorem clientC10 "NFL" reqDate db0 (.keyError "home_team") rfl⟩
